import Mathlib

/-!
Shallow embedding of `pycql` (src/pycql/parser.py): a ply/yacc
operator-precedence parser that turns a CQL token stream into an AST.

The grammar, its production actions and the precedence table are taken
from `src/pycql/parser.py`.  The parser is embedded as a deterministic
recursive parser over the token stream that reproduces the decisions of
the generated LALR automaton:

* the declared precedence tiers (`CQLParser.precedence`, lines 76-81):
  `{EQ,NE}` < `{GT,GE,LT,LE}` < `{PLUS,MINUS}` < `{TIMES,DIVIDE}`, all
  `left`-associative — realised below by the layered
  `parsePrimary`/`parseTerm`/`parseExpr` functions with left-folding
  loops;
* `AND`, `OR` and `NOT` appear in no precedence tier, so every
  shift/reduce conflict they cause is resolved by yacc's default
  (both sides at level 0, default associativity `right`): SHIFT.
  Hence `condition AND/OR condition` groups to the right and
  `NOT condition` absorbs the longest condition to its right —
  realised below by `parseCondAfter` recursing on the full
  `parseCond` for the right operand, and by the `NOT` branch of
  `parseCondOrExpr` consuming a maximal condition;
* a `(`/`[` at condition level may open either a grouped condition or a
  grouped expression that then continues as a predicate (the LALR
  automaton keeps both item sets alive); this is realised by
  `parseCondOrExpr`, whose result marks which non-terminal was
  recognised.

The lexer (`pycql/lexer.py`) and the AST classes (`pycql/ast.py`) are
not part of the sources; they are modelled from the spec where needed
(see the doc comments of `Tok`, `Lit` and `Node`).  Inputs are therefore
given as token streams satisfying the lexical contract of spec §4.1.
-/

namespace PyCQL

/-- Modelled from the spec: the opaque literal payloads carried by
tokens and `LiteralExpression` nodes (`pycql/ast.py` / `pycql/values.py`
are not under src/).  Geometry / envelope / time / duration values are
built by caller-supplied factories from the lexical text and are never
inspected by the core (spec §3, §6), so they are modelled as opaque
carriers of their source text. -/
inductive Lit where
  | int (n : Int)
  | float (s : String)
  | str (s : String)
  | geometry (s : String)
  | envelope (s : String)
  | time (s : String)
  | duration (s : String)
deriving DecidableEq

/-- Modelled from the spec: the right-hand side of a
`TemporalPredicateNode` is either a time instant (the `TIME` token's
factory value, productions `expression BEFORE TIME` /
`expression AFTER TIME`) or the ordered pair built by `p_time_period`
(`p[0] = (p[1], p[3])`). -/
inductive TemporalOperand where
  | instant (v : Lit)
  | period (a b : Lit)
deriving DecidableEq

mutual

/-- Modelled from the spec: the AST node catalog of `pycql/ast.py`
(spec §3), with the constructor names and positional fields used by the
production actions in `src/pycql/parser.py`.  Optional constructor
arguments that default to `None` in Python (`pattern`, `distance`,
`units` of `SpatialPredicateNode`, `crs` of `BBoxPredicateNode`) are
`Option`s defaulting to `none`. -/
inductive Node where
  | CombinationConditionNode (lhs rhs : Node) (op : String)
  | NotConditionNode (sub : Node)
  | ComparisonPredicateNode (lhs rhs : Node) (op : String)
  | BetweenPredicateNode (lhs low high : Node) (negated : Bool)
  | LikePredicateNode (lhs pattern : Node) (caseSensitive : Bool) (negated : Bool)
  | InPredicateNode (lhs : Node) (sub : NodeList) (negated : Bool)
  | NullPredicateNode (lhs : Node) (negated : Bool)
  | TemporalPredicateNode (lhs : Node) (rhs : TemporalOperand) (op : String)
  | SpatialPredicateNode (lhs rhs : Node) (op : String)
      (pattern : Option String) (distance : OptionNode) (units : Option String)
  | BBoxPredicateNode (lhs minx miny maxx maxy : Node) (crs : Option String)
  | ArithmeticExpressionNode (lhs rhs : Node) (op : String)
  | LiteralExpression (value : Lit)
  | AttributeExpression (name : String)
deriving DecidableEq

/-- The ordered sequence of expressions accumulated by
`p_expression_list` (a Python list, kept in source order). -/
inductive NodeList where
  | nil
  | cons (head : Node) (tail : NodeList)
deriving DecidableEq

/-- A `distance` argument that is either absent (Python `None`, the
default of `SpatialPredicateNode`) or a node (the `number` literal of a
`DWITHIN`/`BEYOND` call). -/
inductive OptionNode where
  | none
  | some (n : Node)
deriving DecidableEq

end

/-- The classified tokens consumed by the grammar engine
(`CQLLexer.tokens`; the token kinds are the terminals of the grammar in
`src/pycql/parser.py`, the fixed set of spec §4.1).  Keyword and
punctuation tokens are modelled by bare constructors; their ply token
*values* (the canonical uppercase spelling `"AND"`, `"NOT"`, `"="`,
`"("`, ... that the production actions compare against) are fixed by
the lexical contract and appear below as the string literals of the
corresponding actions.  Literal-carrying tokens keep their payload:
`INTEGER` the converted integer, `FLOAT`/`TIME`/`DURATION`/`GEOMETRY`/
`ENVELOPE` the (opaque, text-keyed) factory value, `QUOTED` the quoted
string's contents, `ATTRIBUTE` the attribute name, `UNITS` the units
text. -/
inductive Tok where
  | EQ | NE | LT | LE | GT | GE
  | PLUS | MINUS | TIMES | DIVIDE
  | LPAREN | RPAREN | LBRACKET | RBRACKET | COMMA
  | AND | OR | NOT
  | BETWEEN | LIKE | ILIKE | IN | IS | NULL
  | BEFORE | AFTER | DURING
  | TIME (v : String) | DURATION (v : String) | UNITS (v : String)
  | INTERSECTS | DISJOINT | CONTAINS | WITHIN | TOUCHES | CROSSES
  | OVERLAPS | EQUALS | RELATE | DWITHIN | BEYOND | BBOX
  | ATTRIBUTE (v : String) | QUOTED (v : String)
  | GEOMETRY (v : String) | ENVELOPE (v : String)
  | INTEGER (v : Int) | FLOAT (v : String)
deriving DecidableEq

/-- Result of one parsing step: either the recognised value together
with the unconsumed tokens, or a syntax error carrying the offending
token (`some t`: the lookahead token ply hands to `p_error`; `none`:
error at end of input, `p_error(None)`). -/
abbrev PRes (α : Type) := Except (Option Tok) (α × List Tok)

/-- Syntax error at the current lookahead (or at end of input). -/
def errAt {α : Type} (ts : List Tok) : PRes α := .error ts.head?

/-- Sequencing of parse results. -/
def pbind {α β : Type} (x : PRes α) (g : α → List Tok → PRes β) : PRes β :=
  match x with
  | .error e => .error e
  | .ok (a, r) => g a r

/-- Which non-terminal a (possibly parenthesised) sub-parse recognised:
a `condition` or an `expression`.  Mirrors the two live item sets the
LALR automaton keeps after an opening bracket at condition level. -/
inductive CondOrExpr where
  | cond (c : Node)
  | expr (e : Node)
deriving DecidableEq

/-- Tokens that continue an already-parsed `expression` into a
`predicate` (the terminals that follow the leading `expression` in the
productions of `p_predicate` and `p_temporal_predicate`). -/
def isPredStart : List Tok → Bool
  | t :: _ =>
    match t with
    | .EQ | .NE | .LT | .LE | .GT | .GE
    | .NOT | .BETWEEN | .LIKE | .ILIKE | .IN | .IS
    | .BEFORE | .AFTER | .DURING => true
    | _ => false
  | [] => false

/-- Tokens that extend a finished `condition` on its left
(`condition AND condition` / `condition OR condition`). -/
def headAndOr : List Tok → Bool
  | .AND :: _ => true
  | .OR :: _ => true
  | _ => false

/-- Production `number : INTEGER | FLOAT`, action `p_number`:
`p[0] = ast.LiteralExpression(p[1])`. -/
def parseNumber : List Tok → PRes Node
  | .INTEGER n :: r => .ok (.LiteralExpression (.int n), r)
  | .FLOAT s :: r => .ok (.LiteralExpression (.float s), r)
  | ts => errAt ts

/-- Production `time_period : TIME DIVIDE TIME | TIME DIVIDE DURATION
| DURATION DIVIDE TIME`, action `p_time_period`: `p[0] = (p[1], p[3])`.
`DURATION DIVIDE DURATION` is not a production, so after
`DURATION DIVIDE` only a `TIME` token can be shifted and anything else
is the offending lookahead. -/
def parseTimePeriod : List Tok → PRes (Lit × Lit)
  | .TIME a :: .DIVIDE :: .TIME b :: r => .ok ((.time a, .time b), r)
  | .TIME a :: .DIVIDE :: .DURATION b :: r => .ok ((.time a, .duration b), r)
  | .DURATION a :: .DIVIDE :: .TIME b :: r => .ok ((.duration a, .time b), r)
  | .TIME _ :: .DIVIDE :: ts => errAt ts
  | .DURATION _ :: .DIVIDE :: ts => errAt ts
  | .TIME _ :: ts => errAt ts
  | .DURATION _ :: ts => errAt ts
  | ts => errAt ts

/-- Spatial-predicate leading keywords (`p_spatial_predicate`). -/
def isSpatialStart : List Tok → Bool
  | t :: _ =>
    match t with
    | .INTERSECTS | .DISJOINT | .CONTAINS | .WITHIN | .TOUCHES | .CROSSES
    | .OVERLAPS | .EQUALS | .RELATE | .DWITHIN | .BEYOND | .BBOX => true
    | _ => false
  | [] => false

mutual

/-- Primaries of `p_expression`: bracketed expression groups (returned
unchanged, no grouping node) and the literal/attribute leaves; a bare
leaf that is not already a node is wrapped in `LiteralExpression`,
`ATTRIBUTE` goes through `p_attribute` to `AttributeExpression`. -/
def parsePrimary : Nat → List Tok → PRes Node
  | 0, _ => .error Option.none
  | f + 1, ts =>
    match ts with
    | .LPAREN :: r =>
      pbind (parseExpr f r) fun e r2 =>
        match r2 with
        | .RPAREN :: r3 => .ok (e, r3)
        | _ => errAt r2
    | .LBRACKET :: r =>
      pbind (parseExpr f r) fun e r2 =>
        match r2 with
        | .RBRACKET :: r3 => .ok (e, r3)
        | _ => errAt r2
    | .GEOMETRY s :: r => .ok (.LiteralExpression (.geometry s), r)
    | .ENVELOPE s :: r => .ok (.LiteralExpression (.envelope s), r)
    | .ATTRIBUTE s :: r => .ok (.AttributeExpression s, r)
    | .QUOTED s :: r => .ok (.LiteralExpression (.str s), r)
    | .INTEGER n :: r => .ok (.LiteralExpression (.int n), r)
    | .FLOAT s :: r => .ok (.LiteralExpression (.float s), r)
    | _ => errAt ts

/-- Left-folding loop for the `TIMES`/`DIVIDE` tier (precedence level 4,
`left`): `expression TIMES expression | expression DIVIDE expression`,
action `ast.ArithmeticExpressionNode(p[1], p[3], p[2])`. -/
def parseTermLoop : Nat → Node → List Tok → PRes Node
  | fuel, lhs, .TIMES :: r =>
    (match fuel with
     | 0 => .error Option.none
     | f + 1 =>
       pbind (parsePrimary f r) fun rhs r2 =>
         parseTermLoop f (.ArithmeticExpressionNode lhs rhs "*") r2)
  | fuel, lhs, .DIVIDE :: r =>
    (match fuel with
     | 0 => .error Option.none
     | f + 1 =>
       pbind (parsePrimary f r) fun rhs r2 =>
         parseTermLoop f (.ArithmeticExpressionNode lhs rhs "/") r2)
  | _, lhs, ts => .ok (lhs, ts)

/-- A maximal `TIMES`/`DIVIDE` chain. -/
def parseTerm : Nat → List Tok → PRes Node
  | 0, _ => .error Option.none
  | f + 1, ts => pbind (parsePrimary f ts) fun p r => parseTermLoop f p r

/-- Left-folding loop for the `PLUS`/`MINUS` tier (precedence level 3,
`left`; `TIMES`/`DIVIDE` bind tighter, so operands are terms):
`expression PLUS expression | expression MINUS expression`. -/
def parseExprLoop : Nat → Node → List Tok → PRes Node
  | fuel, lhs, .PLUS :: r =>
    (match fuel with
     | 0 => .error Option.none
     | f + 1 =>
       pbind (parseTerm f r) fun t r2 =>
         parseExprLoop f (.ArithmeticExpressionNode lhs t "+") r2)
  | fuel, lhs, .MINUS :: r =>
    (match fuel with
     | 0 => .error Option.none
     | f + 1 =>
       pbind (parseTerm f r) fun t r2 =>
         parseExprLoop f (.ArithmeticExpressionNode lhs t "-") r2)
  | _, lhs, ts => .ok (lhs, ts)

/-- The `expression` non-terminal (`p_expression`): a maximal
arithmetic expression under the declared `left` precedences. -/
def parseExpr : Nat → List Tok → PRes Node
  | 0, _ => .error Option.none
  | f + 1, ts => pbind (parseTerm f ts) fun t r => parseExprLoop f t r

/-- Production `expression_list : expression_list COMMA expression |
expression` (`p_expression_list`): source-order accumulation. -/
def parseExprList : Nat → List Tok → PRes NodeList
  | 0, _ => .error Option.none
  | f + 1, ts =>
    pbind (parseExpr f ts) fun e r =>
      match r with
      | .COMMA :: r2 =>
        pbind (parseExprList f r2) fun es r3 => .ok (.cons e es, r3)
      | _ => .ok (.cons e .nil, r)

/-- Tail of `expression [NOT] BETWEEN expression AND expression`,
action `ast.BetweenPredicateNode(p[1], low, high, not_)`. -/
def parseBetweenTail : Nat → Node → Bool → List Tok → PRes Node
  | 0, _, _, _ => .error Option.none
  | f + 1, lhs, neg, ts =>
    pbind (parseExpr f ts) fun low r =>
      match r with
      | .AND :: r2 =>
        pbind (parseExpr f r2) fun high r3 =>
          .ok (.BetweenPredicateNode lhs low high neg, r3)
      | _ => errAt r

/-- Tail of `expression [NOT] IN LPAREN expression_list RPAREN`,
action `ast.InPredicateNode(p[1], list, not_)`. -/
def parseInTail : Nat → Node → Bool → List Tok → PRes Node
  | 0, _, _, _ => .error Option.none
  | f + 1, lhs, neg, ts =>
    match ts with
    | .LPAREN :: r =>
      pbind (parseExprList f r) fun es r2 =>
        match r2 with
        | .RPAREN :: r3 => .ok (.InPredicateNode lhs es neg, r3)
        | _ => errAt r2
    | _ => errAt ts

/-- Continuation of `p_predicate` / `p_temporal_predicate` after the
leading `expression` has been recognised.  A `NOT` here is consumed as
the predicate's `negated` flag (`not_ = True`, distinct from the
`NOT condition` code path of `p_condition`).  The comparison operator
strings are the token values of `EQ NE LT LE GT GE`; the multi-keyword
temporal operators are the joined token values
(`" ".join(p[2:-1])` in `p_temporal_predicate`). -/
def parsePredAfterExpr : Nat → Node → List Tok → PRes Node
  | 0, _, _ => .error Option.none
  | f + 1, lhs, ts =>
    match ts with
    | .EQ :: r =>
      pbind (parseExpr f r) fun rhs r2 =>
        .ok (.ComparisonPredicateNode lhs rhs "=", r2)
    | .NE :: r =>
      pbind (parseExpr f r) fun rhs r2 =>
        .ok (.ComparisonPredicateNode lhs rhs "<>", r2)
    | .LT :: r =>
      pbind (parseExpr f r) fun rhs r2 =>
        .ok (.ComparisonPredicateNode lhs rhs "<", r2)
    | .LE :: r =>
      pbind (parseExpr f r) fun rhs r2 =>
        .ok (.ComparisonPredicateNode lhs rhs "<=", r2)
    | .GT :: r =>
      pbind (parseExpr f r) fun rhs r2 =>
        .ok (.ComparisonPredicateNode lhs rhs ">", r2)
    | .GE :: r =>
      pbind (parseExpr f r) fun rhs r2 =>
        .ok (.ComparisonPredicateNode lhs rhs ">=", r2)
    | .NOT :: r =>
      (match r with
       | .BETWEEN :: r2 => parseBetweenTail f lhs true r2
       | .LIKE :: r2 =>
         (match r2 with
          | .QUOTED s :: r3 =>
            .ok (.LikePredicateNode lhs (.LiteralExpression (.str s)) true true, r3)
          | _ => errAt r2)
       | .ILIKE :: r2 =>
         (match r2 with
          | .QUOTED s :: r3 =>
            .ok (.LikePredicateNode lhs (.LiteralExpression (.str s)) false true, r3)
          | _ => errAt r2)
       | .IN :: r2 => parseInTail f lhs true r2
       | _ => errAt r)
    | .BETWEEN :: r => parseBetweenTail f lhs false r
    | .LIKE :: r =>
      (match r with
       | .QUOTED s :: r2 =>
         .ok (.LikePredicateNode lhs (.LiteralExpression (.str s)) true false, r2)
       | _ => errAt r)
    | .ILIKE :: r =>
      (match r with
       | .QUOTED s :: r2 =>
         .ok (.LikePredicateNode lhs (.LiteralExpression (.str s)) false false, r2)
       | _ => errAt r)
    | .IN :: r => parseInTail f lhs false r
    | .IS :: r =>
      (match r with
       | .NOT :: r2 =>
         (match r2 with
          | .NULL :: r3 => .ok (.NullPredicateNode lhs true, r3)
          | _ => errAt r2)
       | .NULL :: r2 => .ok (.NullPredicateNode lhs false, r2)
       | _ => errAt r)
    | .BEFORE :: r =>
      (match r with
       | .TIME v :: r2 =>
         .ok (.TemporalPredicateNode lhs (.instant (.time v)) "BEFORE", r2)
       | .OR :: r2 =>
         (match r2 with
          | .DURING :: r3 =>
            pbind (parseTimePeriod r3) fun p r4 =>
              .ok (.TemporalPredicateNode lhs (.period p.1 p.2) "BEFORE OR DURING", r4)
          | _ => errAt r2)
       | _ => errAt r)
    | .DURING :: r =>
      (match r with
       | .OR :: r2 =>
         (match r2 with
          | .AFTER :: r3 =>
            pbind (parseTimePeriod r3) fun p r4 =>
              .ok (.TemporalPredicateNode lhs (.period p.1 p.2) "DURING OR AFTER", r4)
          | _ => errAt r2)
       | _ =>
         pbind (parseTimePeriod r) fun p r2 =>
           .ok (.TemporalPredicateNode lhs (.period p.1 p.2) "DURING", r2))
    | .AFTER :: r =>
      (match r with
       | .TIME v :: r2 =>
         .ok (.TemporalPredicateNode lhs (.instant (.time v)) "AFTER", r2)
       | _ => errAt r)
    | _ => errAt ts

/-- Tail of the eight fixed-arity spatial productions
`OP LPAREN expression COMMA expression RPAREN`, action
`ast.SpatialPredicateNode(p[3], p[5], p[1])` (optional fields left at
their `None` defaults). -/
def parseSpatialArgsTail : Nat → String → List Tok → PRes Node
  | 0, _, _ => .error Option.none
  | f + 1, op, ts =>
    match ts with
    | .LPAREN :: r =>
      pbind (parseExpr f r) fun e1 r2 =>
        match r2 with
        | .COMMA :: r3 =>
          pbind (parseExpr f r3) fun e2 r4 =>
            match r4 with
            | .RPAREN :: r5 =>
              .ok (.SpatialPredicateNode e1 e2 op Option.none .none Option.none, r5)
            | _ => errAt r4
        | _ => errAt r2
    | _ => errAt ts

/-- Tail of `RELATE LPAREN expression COMMA expression COMMA QUOTED
RPAREN`, action `ast.SpatialPredicateNode(p[3], p[5], p[1],
pattern=p[7])`. -/
def parseRelateTail : Nat → List Tok → PRes Node
  | 0, _ => .error Option.none
  | f + 1, ts =>
    match ts with
    | .LPAREN :: r =>
      pbind (parseExpr f r) fun e1 r2 =>
        match r2 with
        | .COMMA :: r3 =>
          pbind (parseExpr f r3) fun e2 r4 =>
            match r4 with
            | .COMMA :: .QUOTED s :: .RPAREN :: r5 =>
              .ok (.SpatialPredicateNode e1 e2 "RELATE" (Option.some s) .none Option.none, r5)
            | .COMMA :: .QUOTED _ :: r5 => errAt r5
            | .COMMA :: r5 => errAt r5
            | _ => errAt r4
        | _ => errAt r2
    | _ => errAt ts

/-- Tail of `DWITHIN|BEYOND LPAREN expression COMMA expression COMMA
number COMMA UNITS RPAREN`, action `ast.SpatialPredicateNode(p[3],
p[5], p[1], distance=p[7], units=p[9])`. -/
def parseDistTail : Nat → String → List Tok → PRes Node
  | 0, _, _ => .error Option.none
  | f + 1, op, ts =>
    match ts with
    | .LPAREN :: r =>
      pbind (parseExpr f r) fun e1 r2 =>
        match r2 with
        | .COMMA :: r3 =>
          pbind (parseExpr f r3) fun e2 r4 =>
            match r4 with
            | .COMMA :: r5 =>
              pbind (parseNumber r5) fun d r6 =>
                (match r6 with
                 | .COMMA :: .UNITS u :: .RPAREN :: r7 =>
                   .ok (.SpatialPredicateNode e1 e2 op Option.none (.some d) (Option.some u), r7)
                 | .COMMA :: .UNITS _ :: r7 => errAt r7
                 | .COMMA :: r7 => errAt r7
                 | _ => errAt r6)
            | _ => errAt r4
        | _ => errAt r2
    | _ => errAt ts

/-- Tail of the two `BBOX` productions, action
`ast.BBoxPredicateNode(lhs, *p[5::2])`: the value expression, the four
`number` literals at the fixed positions 5, 7, 9, 11 (the comma
separators at even positions are skipped by the stride-2 slice), and
the optional trailing `QUOTED` CRS. -/
def parseBBoxTail : Nat → List Tok → PRes Node
  | 0, _ => .error Option.none
  | f + 1, ts =>
    match ts with
    | .LPAREN :: r =>
      pbind (parseExpr f r) fun v r2 =>
        match r2 with
        | .COMMA :: r3 =>
          pbind (parseNumber r3) fun n1 r4 =>
            match r4 with
            | .COMMA :: r5 =>
              pbind (parseNumber r5) fun n2 r6 =>
                match r6 with
                | .COMMA :: r7 =>
                  pbind (parseNumber r7) fun n3 r8 =>
                    match r8 with
                    | .COMMA :: r9 =>
                      pbind (parseNumber r9) fun n4 r10 =>
                        (match r10 with
                         | .RPAREN :: r11 =>
                           .ok (.BBoxPredicateNode v n1 n2 n3 n4 Option.none, r11)
                         | .COMMA :: .QUOTED c :: .RPAREN :: r11 =>
                           .ok (.BBoxPredicateNode v n1 n2 n3 n4 (Option.some c), r11)
                         | .COMMA :: .QUOTED _ :: r11 => errAt r11
                         | .COMMA :: r11 => errAt r11
                         | _ => errAt r10)
                    | _ => errAt r8
                | _ => errAt r6
            | _ => errAt r4
        | _ => errAt r2
    | _ => errAt ts

/-- The `spatial_predicate` non-terminal (`p_spatial_predicate`): dispatch on the
leading keyword; `BBOX` builds a `BBoxPredicateNode`, every other
operator a `SpatialPredicateNode`. -/
def parseSpatial : Nat → List Tok → PRes Node
  | 0, _ => .error Option.none
  | f + 1, ts =>
    match ts with
    | .INTERSECTS :: r => parseSpatialArgsTail f "INTERSECTS" r
    | .DISJOINT :: r => parseSpatialArgsTail f "DISJOINT" r
    | .CONTAINS :: r => parseSpatialArgsTail f "CONTAINS" r
    | .WITHIN :: r => parseSpatialArgsTail f "WITHIN" r
    | .TOUCHES :: r => parseSpatialArgsTail f "TOUCHES" r
    | .CROSSES :: r => parseSpatialArgsTail f "CROSSES" r
    | .OVERLAPS :: r => parseSpatialArgsTail f "OVERLAPS" r
    | .EQUALS :: r => parseSpatialArgsTail f "EQUALS" r
    | .RELATE :: r => parseRelateTail f r
    | .DWITHIN :: r => parseDistTail f "DWITHIN" r
    | .BEYOND :: r => parseDistTail f "BEYOND" r
    | .BBOX :: r => parseBBoxTail f r
    | _ => errAt ts

/-- Continuation of a finished `condition` with
`condition AND condition | condition OR condition`
(`ast.CombinationConditionNode(p[1], p[3], p[2])`).  `AND`/`OR` have no
declared precedence, so the shift/reduce conflicts against a pending
`AND`/`OR`/`NOT` reduction are resolved by yacc's default SHIFT: the
right operand is the maximal condition to the right (right grouping). -/
def parseCondAfter : Nat → Node → List Tok → PRes Node
  | fuel, c, .AND :: r =>
    (match fuel with
     | 0 => .error Option.none
     | f + 1 =>
       pbind (parseCond f r) fun rhs r2 =>
         .ok (.CombinationConditionNode c rhs "AND", r2))
  | fuel, c, .OR :: r =>
    (match fuel with
     | 0 => .error Option.none
     | f + 1 =>
       pbind (parseCond f r) fun rhs r2 =>
         .ok (.CombinationConditionNode c rhs "OR", r2))
  | _, c, ts => .ok (c, ts)

/-- Body of a bracketed group at condition level
(`condition : LPAREN condition RPAREN | LBRACKET condition RBRACKET`
overlapping `expression : LPAREN expression RPAREN | LBRACKET
expression RBRACKET`): the closer must match the opener, the group's
value is the inner node unchanged (the actions return `p[2]`; no
grouping node exists). -/
def parseGroup : Nat → Bool → List Tok → PRes CondOrExpr
  | 0, _, _ => .error Option.none
  | f + 1, paren, ts =>
    pbind (parseCondOrExpr f ts) fun g r =>
      match paren, r with
      | true, .RPAREN :: r2 => parseAfterGroup f g r2
      | false, .RBRACKET :: r2 => parseAfterGroup f g r2
      | _, r1 => errAt r1

/-- After a closed group: a condition group can be extended by
`AND`/`OR`; an expression group is an expression primary that continues
with the arithmetic tiers and can then form a predicate. -/
def parseAfterGroup : Nat → CondOrExpr → List Tok → PRes CondOrExpr
  | 0, _, _ => .error Option.none
  | f + 1, g, ts =>
    match g with
    | .cond c =>
      pbind (parseCondAfter f c ts) fun c2 r => .ok (.cond c2, r)
    | .expr e => parseExprGroupCont f e ts

/-- Continuation of an expression group used as a primary: finish the
`TIMES`/`DIVIDE` and `PLUS`/`MINUS` tiers, then a predicate
continuation if one follows, else the group stays an expression. -/
def parseExprGroupCont : Nat → Node → List Tok → PRes CondOrExpr
  | 0, _, _ => .error Option.none
  | f + 1, e, ts =>
    pbind (parseTermLoop f e ts) fun t r =>
      pbind (parseExprLoop f t r) fun x r2 =>
        if isPredStart r2 then
          pbind (parsePredAfterExpr f x r2) fun p r3 =>
            pbind (parseCondAfter f p r3) fun c r4 => .ok (.cond c, r4)
        else .ok (.expr x, r2)

/-- The overlapping `condition`/`expression` grammar at condition
level, tracking which non-terminal was recognised (the LALR automaton
keeps both item sets alive until a comparison/predicate token or the
surrounding context disambiguates).  A leading `NOT` is
`condition : NOT condition` (`ast.NotConditionNode(p[2])`); since `NOT`
has no declared precedence the conflict against a following `AND`/`OR`
is resolved by default SHIFT, so the negated condition is the maximal
condition to the right. -/
def parseCondOrExpr : Nat → List Tok → PRes CondOrExpr
  | 0, _ => .error Option.none
  | f + 1, ts =>
    match ts with
    | .NOT :: r =>
      pbind (parseCond f r) fun c r2 => .ok (.cond (.NotConditionNode c), r2)
    | .LPAREN :: r => parseGroup f true r
    | .LBRACKET :: r => parseGroup f false r
    | _ =>
      if isSpatialStart ts then
        pbind (parseSpatial f ts) fun s r =>
          pbind (parseCondAfter f s r) fun c r2 => .ok (.cond c, r2)
      else
        pbind (parseExpr f ts) fun e r =>
          if isPredStart r then
            pbind (parsePredAfterExpr f e r) fun p r2 =>
              pbind (parseCondAfter f p r2) fun c r3 => .ok (.cond c, r3)
          else .ok (.expr e, r)

/-- The `condition` non-terminal: a sub-parse that recognised only an
`expression` cannot reduce to a condition, so the next token (or end of
input) is the offending lookahead. -/
def parseCond : Nat → List Tok → PRes Node
  | 0, _ => .error Option.none
  | f + 1, ts =>
    pbind (parseCondOrExpr f ts) fun g r =>
      match g with
      | .cond c => .ok (c, r)
      | .expr _ => errAt r

end

/-- Ample fuel: the mutual parser consumes at least one token every
eight same-position calls. -/
def fuelFor (ts : List Tok) : Nat := 8 * ts.length + 8

/-- What a parse attempt produces: the root AST node, the designated
empty result of `condition_or_empty : empty` (`p_empty` sets the value
to Python `None`), or a syntax error reported to `p_error` with the
offending token (`none` at end of input: "Syntax error at EOF"). -/
inductive Outcome where
  | tree (n : Node)
  | empty
  | error (t : Option Tok)
deriving DecidableEq

/-- The grammar engine on a classified token stream: start symbol
`condition_or_empty : condition | empty` (`p_condition_or_empty`).
Leftover tokens after a complete condition cannot be shifted and are a
syntax error at that lookahead. -/
def parse (ts : List Tok) : Outcome :=
  match ts with
  | [] => .empty
  | _ =>
    match parseCond (fuelFor ts) ts with
    | .ok (c, []) => .tree c
    | .ok (_, t :: _) => .error (Option.some t)
    | .error e => .error e

/-- The value `CQLParser.parse` hands back to its caller: the root node
on success, Python `None` for the empty production, and — because
`p_error` only logs the diagnostics at DEBUG level (the `errok` call is
commented out) and ply's engine aborts an unrecoverable error by
returning `None` — also `None` on a syntax error. -/
def returnValue : Outcome → Option Node
  | .tree n => Option.some n
  | .empty => Option.none
  | .error _ => Option.none

/-!  Tree predicates used by the claims. -/

/-- Nodes producible by the `expression` sub-grammar alone: arithmetic
over attribute and literal leaves. -/
def exprOnly : Node → Bool
  | .ArithmeticExpressionNode l r _ => exprOnly l && exprOnly r
  | .LiteralExpression _ => true
  | .AttributeExpression _ => true
  | _ => false

/-- Whether `exprOnly` holds for every element of a node list. -/
def exprOnlyList : NodeList → Bool
  | .nil => true
  | .cons h t => exprOnly h && exprOnlyList t

mutual

/-- No `ComparisonPredicateNode` occurs anywhere in the tree. -/
def compFree : Node → Bool
  | .CombinationConditionNode l r _ => compFree l && compFree r
  | .NotConditionNode s => compFree s
  | .ComparisonPredicateNode _ _ _ => false
  | .BetweenPredicateNode a b c _ => compFree a && compFree b && compFree c
  | .LikePredicateNode a p _ _ => compFree a && compFree p
  | .InPredicateNode a subs _ => compFree a && compFreeList subs
  | .NullPredicateNode a _ => compFree a
  | .TemporalPredicateNode a _ _ => compFree a
  | .SpatialPredicateNode a b _ _ d _ => compFree a && compFree b && compFreeOpt d
  | .BBoxPredicateNode a b c d e _ =>
    compFree a && compFree b && compFree c && compFree d && compFree e
  | .ArithmeticExpressionNode l r _ => compFree l && compFree r
  | .LiteralExpression _ => true
  | .AttributeExpression _ => true

def compFreeList : NodeList → Bool
  | .nil => true
  | .cons h t => compFree h && compFreeList t

def compFreeOpt : OptionNode → Bool
  | .none => true
  | .some n => compFree n

end

mutual

/-- No `ComparisonPredicateNode` is nested inside any
`ArithmeticExpressionNode` of the tree: the children of every
arithmetic node are comparison-free. -/
def noCompInArith : Node → Bool
  | .CombinationConditionNode l r _ => noCompInArith l && noCompInArith r
  | .NotConditionNode s => noCompInArith s
  | .ComparisonPredicateNode l r _ => noCompInArith l && noCompInArith r
  | .BetweenPredicateNode a b c _ =>
    noCompInArith a && noCompInArith b && noCompInArith c
  | .LikePredicateNode a p _ _ => noCompInArith a && noCompInArith p
  | .InPredicateNode a subs _ => noCompInArith a && noCompInArithList subs
  | .NullPredicateNode a _ => noCompInArith a
  | .TemporalPredicateNode a _ _ => noCompInArith a
  | .SpatialPredicateNode a b _ _ d _ =>
    noCompInArith a && noCompInArith b && noCompInArithOpt d
  | .BBoxPredicateNode a b c d e _ =>
    noCompInArith a && noCompInArith b && noCompInArith c &&
      noCompInArith d && noCompInArith e
  | .ArithmeticExpressionNode l r _ => compFree l && compFree r
  | .LiteralExpression _ => true
  | .AttributeExpression _ => true

def noCompInArithList : NodeList → Bool
  | .nil => true
  | .cons h t => noCompInArith h && noCompInArithList t

def noCompInArithOpt : OptionNode → Bool
  | .none => true
  | .some n => noCompInArith n

end

/-- The invariant carried by a `CondOrExpr` sub-parse result. -/
def okCoE : CondOrExpr → Bool
  | .cond c => noCompInArith c
  | .expr e => exprOnly e

/-- The predicate kinds whose `negated` flag a leading `NOT` token sets
(`not_` in `p_predicate`), read back from the node. -/
def isNegatedPredicate : Node → Bool
  | .BetweenPredicateNode _ _ _ n => n
  | .LikePredicateNode _ _ _ n => n
  | .InPredicateNode _ _ n => n
  | _ => false

/-- Whether a node is a `NotConditionNode` wrapper. -/
def isNotCondition : Node → Bool
  | .NotConditionNode _ => true
  | _ => false

/-- The joint invariant of the mutual parser at a given fuel: every
node produced by the expression sub-grammar is `exprOnly`, and every
node produced at predicate/condition level nests no comparison inside
arithmetic. -/
structure Inv (f : Nat) : Prop where
  prim : ∀ ts e r, parsePrimary f ts = .ok (e, r) → exprOnly e = true
  termLoop : ∀ lhs ts e r, exprOnly lhs = true →
    parseTermLoop f lhs ts = .ok (e, r) → exprOnly e = true
  term : ∀ ts e r, parseTerm f ts = .ok (e, r) → exprOnly e = true
  exprLoop : ∀ lhs ts e r, exprOnly lhs = true →
    parseExprLoop f lhs ts = .ok (e, r) → exprOnly e = true
  expr : ∀ ts e r, parseExpr f ts = .ok (e, r) → exprOnly e = true
  exprList : ∀ ts es r, parseExprList f ts = .ok (es, r) → exprOnlyList es = true
  betweenTail : ∀ lhs neg ts n r, exprOnly lhs = true →
    parseBetweenTail f lhs neg ts = .ok (n, r) → noCompInArith n = true
  inTail : ∀ lhs neg ts n r, exprOnly lhs = true →
    parseInTail f lhs neg ts = .ok (n, r) → noCompInArith n = true
  predAfter : ∀ lhs ts n r, exprOnly lhs = true →
    parsePredAfterExpr f lhs ts = .ok (n, r) → noCompInArith n = true
  spatialArgs : ∀ op ts n r, parseSpatialArgsTail f op ts = .ok (n, r) →
    noCompInArith n = true
  relateTail : ∀ ts n r, parseRelateTail f ts = .ok (n, r) → noCompInArith n = true
  distTail : ∀ op ts n r, parseDistTail f op ts = .ok (n, r) → noCompInArith n = true
  bboxTail : ∀ ts n r, parseBBoxTail f ts = .ok (n, r) → noCompInArith n = true
  spatial : ∀ ts n r, parseSpatial f ts = .ok (n, r) → noCompInArith n = true
  condAfter : ∀ c ts n r, noCompInArith c = true →
    parseCondAfter f c ts = .ok (n, r) → noCompInArith n = true
  group : ∀ b ts g r, parseGroup f b ts = .ok (g, r) → okCoE g = true
  afterGroup : ∀ g0 ts g r, okCoE g0 = true →
    parseAfterGroup f g0 ts = .ok (g, r) → okCoE g = true
  exprGroupCont : ∀ e ts g r, exprOnly e = true →
    parseExprGroupCont f e ts = .ok (g, r) → okCoE g = true
  condOrExpr : ∀ ts g r, parseCondOrExpr f ts = .ok (g, r) → okCoE g = true
  cond : ∀ ts c r, parseCond f ts = .ok (c, r) → noCompInArith c = true

/-!  Inversion and unfolding lemmas used by the invariant proofs. -/

@[simp] theorem pbind_ok {α β : Type} (a : α) (r : List Tok)
    (g : α → List Tok → PRes β) : pbind (.ok (a, r)) g = g a r := rfl

@[simp] theorem pbind_error {α β : Type} (e : Option Tok)
    (g : α → List Tok → PRes β) : pbind (.error e) g = .error e := rfl

/-- An `exprOnly` tree contains no comparison node. -/
theorem exprOnly_compFree (n : Node) (h : exprOnly n = true) : compFree n = true := by
  match n with
  | .ArithmeticExpressionNode l r op =>
    simp only [exprOnly, Bool.and_eq_true] at h
    simp only [compFree, Bool.and_eq_true]
    exact ⟨exprOnly_compFree l h.1, exprOnly_compFree r h.2⟩
  | .LiteralExpression _ => rfl
  | .AttributeExpression _ => rfl
  | .CombinationConditionNode _ _ _ | .NotConditionNode _
  | .ComparisonPredicateNode _ _ _ | .BetweenPredicateNode _ _ _ _
  | .LikePredicateNode _ _ _ _ | .InPredicateNode _ _ _
  | .NullPredicateNode _ _ | .TemporalPredicateNode _ _ _
  | .SpatialPredicateNode _ _ _ _ _ _ | .BBoxPredicateNode _ _ _ _ _ _ =>
    simp only [exprOnly] at h
    exact Bool.noConfusion h

/-- An `exprOnly` tree nests no comparison inside arithmetic. -/
theorem exprOnly_noCompInArith (n : Node) (h : exprOnly n = true) :
    noCompInArith n = true := by
  match n with
  | .ArithmeticExpressionNode l r op =>
    simp only [exprOnly, Bool.and_eq_true] at h
    simp only [noCompInArith, Bool.and_eq_true]
    exact ⟨exprOnly_compFree l h.1, exprOnly_compFree r h.2⟩
  | .LiteralExpression _ => rfl
  | .AttributeExpression _ => rfl
  | .CombinationConditionNode _ _ _ | .NotConditionNode _
  | .ComparisonPredicateNode _ _ _ | .BetweenPredicateNode _ _ _ _
  | .LikePredicateNode _ _ _ _ | .InPredicateNode _ _ _
  | .NullPredicateNode _ _ | .TemporalPredicateNode _ _ _
  | .SpatialPredicateNode _ _ _ _ _ _ | .BBoxPredicateNode _ _ _ _ _ _ =>
    simp only [exprOnly] at h
    exact Bool.noConfusion h

/-- An `exprOnly` node list nests no comparison inside arithmetic. -/
theorem exprOnlyList_noCompInArithList (l : NodeList) (h : exprOnlyList l = true) :
    noCompInArithList l = true := by
  match l with
  | .nil => rfl
  | .cons hd tl =>
    simp only [exprOnlyList, Bool.and_eq_true] at h
    simp only [noCompInArithList, Bool.and_eq_true]
    exact ⟨exprOnly_noCompInArith hd h.1, exprOnlyList_noCompInArithList tl h.2⟩

theorem pbind_eq_ok {α β : Type} {x : PRes α} {g : α → List Tok → PRes β}
    {b : β} {r : List Tok} (h : pbind x g = .ok (b, r)) :
    ∃ a r1, x = .ok (a, r1) ∧ g a r1 = .ok (b, r) := by
  cases x with
  | error e => simp only [pbind_error] at h; exact Except.noConfusion h
  | ok v =>
    obtain ⟨a, r1⟩ := v
    exact ⟨a, r1, rfl, by simpa only [pbind_ok] using h⟩

theorem parseNumber_exprOnly {ts : List Tok} {d : Node} {r : List Tok}
    (h : parseNumber ts = .ok (d, r)) : exprOnly d = true := by
  rw [parseNumber.eq_def] at h
  split at h
  · simp only [Except.ok.injEq, Prod.mk.injEq] at h
    obtain ⟨rfl, rfl⟩ := h
    rfl
  · simp only [Except.ok.injEq, Prod.mk.injEq] at h
    obtain ⟨rfl, rfl⟩ := h
    rfl
  · simp only [errAt] at h; exact Except.noConfusion h

theorem parsePrimary_succ (f : Nat) (ts : List Tok) :
    parsePrimary (f+1) ts =
      match ts with
      | .LPAREN :: r =>
        pbind (parseExpr f r) fun e r2 =>
          match r2 with
          | .RPAREN :: r3 => .ok (e, r3)
          | _ => errAt r2
      | .LBRACKET :: r =>
        pbind (parseExpr f r) fun e r2 =>
          match r2 with
          | .RBRACKET :: r3 => .ok (e, r3)
          | _ => errAt r2
      | .GEOMETRY s :: r => .ok (.LiteralExpression (.geometry s), r)
      | .ENVELOPE s :: r => .ok (.LiteralExpression (.envelope s), r)
      | .ATTRIBUTE s :: r => .ok (.AttributeExpression s, r)
      | .QUOTED s :: r => .ok (.LiteralExpression (.str s), r)
      | .INTEGER n :: r => .ok (.LiteralExpression (.int n), r)
      | .FLOAT s :: r => .ok (.LiteralExpression (.float s), r)
      | _ => errAt ts := rfl

theorem parseTerm_succ (f : Nat) (ts : List Tok) :
    parseTerm (f+1) ts = pbind (parsePrimary f ts) fun p r => parseTermLoop f p r := rfl

theorem parseExpr_succ (f : Nat) (ts : List Tok) :
    parseExpr (f+1) ts = pbind (parseTerm f ts) fun t r => parseExprLoop f t r := rfl

theorem parseExprList_succ (f : Nat) (ts : List Tok) :
    parseExprList (f+1) ts =
      pbind (parseExpr f ts) fun e r =>
        match r with
        | .COMMA :: r2 =>
          pbind (parseExprList f r2) fun es r3 => .ok (.cons e es, r3)
        | _ => .ok (.cons e .nil, r) := rfl

theorem parseBetweenTail_succ (f : Nat) (lhs : Node) (neg : Bool) (ts : List Tok) :
    parseBetweenTail (f+1) lhs neg ts =
      pbind (parseExpr f ts) fun low r =>
        match r with
        | .AND :: r2 =>
          pbind (parseExpr f r2) fun high r3 =>
            .ok (.BetweenPredicateNode lhs low high neg, r3)
        | _ => errAt r := rfl

theorem parseInTail_succ (f : Nat) (lhs : Node) (neg : Bool) (ts : List Tok) :
    parseInTail (f+1) lhs neg ts =
      match ts with
      | .LPAREN :: r =>
        pbind (parseExprList f r) fun es r2 =>
          match r2 with
          | .RPAREN :: r3 => .ok (.InPredicateNode lhs es neg, r3)
          | _ => errAt r2
      | _ => errAt ts := rfl

theorem parsePredAfterExpr_succ (f : Nat) (lhs : Node) (ts : List Tok) :
    parsePredAfterExpr (f+1) lhs ts =
      match ts with
      | .EQ :: r =>
        pbind (parseExpr f r) fun rhs r2 =>
          .ok (.ComparisonPredicateNode lhs rhs "=", r2)
      | .NE :: r =>
        pbind (parseExpr f r) fun rhs r2 =>
          .ok (.ComparisonPredicateNode lhs rhs "<>", r2)
      | .LT :: r =>
        pbind (parseExpr f r) fun rhs r2 =>
          .ok (.ComparisonPredicateNode lhs rhs "<", r2)
      | .LE :: r =>
        pbind (parseExpr f r) fun rhs r2 =>
          .ok (.ComparisonPredicateNode lhs rhs "<=", r2)
      | .GT :: r =>
        pbind (parseExpr f r) fun rhs r2 =>
          .ok (.ComparisonPredicateNode lhs rhs ">", r2)
      | .GE :: r =>
        pbind (parseExpr f r) fun rhs r2 =>
          .ok (.ComparisonPredicateNode lhs rhs ">=", r2)
      | .NOT :: r =>
        (match r with
         | .BETWEEN :: r2 => parseBetweenTail f lhs true r2
         | .LIKE :: r2 =>
           (match r2 with
            | .QUOTED s :: r3 =>
              .ok (.LikePredicateNode lhs (.LiteralExpression (.str s)) true true, r3)
            | _ => errAt r2)
         | .ILIKE :: r2 =>
           (match r2 with
            | .QUOTED s :: r3 =>
              .ok (.LikePredicateNode lhs (.LiteralExpression (.str s)) false true, r3)
            | _ => errAt r2)
         | .IN :: r2 => parseInTail f lhs true r2
         | _ => errAt r)
      | .BETWEEN :: r => parseBetweenTail f lhs false r
      | .LIKE :: r =>
        (match r with
         | .QUOTED s :: r2 =>
           .ok (.LikePredicateNode lhs (.LiteralExpression (.str s)) true false, r2)
         | _ => errAt r)
      | .ILIKE :: r =>
        (match r with
         | .QUOTED s :: r2 =>
           .ok (.LikePredicateNode lhs (.LiteralExpression (.str s)) false false, r2)
         | _ => errAt r)
      | .IN :: r => parseInTail f lhs false r
      | .IS :: r =>
        (match r with
         | .NOT :: r2 =>
           (match r2 with
            | .NULL :: r3 => .ok (.NullPredicateNode lhs true, r3)
            | _ => errAt r2)
         | .NULL :: r2 => .ok (.NullPredicateNode lhs false, r2)
         | _ => errAt r)
      | .BEFORE :: r =>
        (match r with
         | .TIME v :: r2 =>
           .ok (.TemporalPredicateNode lhs (.instant (.time v)) "BEFORE", r2)
         | .OR :: r2 =>
           (match r2 with
            | .DURING :: r3 =>
              pbind (parseTimePeriod r3) fun p r4 =>
                .ok (.TemporalPredicateNode lhs (.period p.1 p.2) "BEFORE OR DURING", r4)
            | _ => errAt r2)
         | _ => errAt r)
      | .DURING :: r =>
        (match r with
         | .OR :: r2 =>
           (match r2 with
            | .AFTER :: r3 =>
              pbind (parseTimePeriod r3) fun p r4 =>
                .ok (.TemporalPredicateNode lhs (.period p.1 p.2) "DURING OR AFTER", r4)
            | _ => errAt r2)
         | _ =>
           pbind (parseTimePeriod r) fun p r2 =>
             .ok (.TemporalPredicateNode lhs (.period p.1 p.2) "DURING", r2))
      | .AFTER :: r =>
        (match r with
         | .TIME v :: r2 =>
           .ok (.TemporalPredicateNode lhs (.instant (.time v)) "AFTER", r2)
         | _ => errAt r)
      | _ => errAt ts := rfl

theorem parseSpatialArgsTail_succ (f : Nat) (op : String) (ts : List Tok) :
    parseSpatialArgsTail (f+1) op ts =
      match ts with
      | .LPAREN :: r =>
        pbind (parseExpr f r) fun e1 r2 =>
          match r2 with
          | .COMMA :: r3 =>
            pbind (parseExpr f r3) fun e2 r4 =>
              match r4 with
              | .RPAREN :: r5 =>
                .ok (.SpatialPredicateNode e1 e2 op Option.none .none Option.none, r5)
              | _ => errAt r4
          | _ => errAt r2
      | _ => errAt ts := rfl

theorem parseRelateTail_succ (f : Nat) (ts : List Tok) :
    parseRelateTail (f+1) ts =
      match ts with
      | .LPAREN :: r =>
        pbind (parseExpr f r) fun e1 r2 =>
          match r2 with
          | .COMMA :: r3 =>
            pbind (parseExpr f r3) fun e2 r4 =>
              match r4 with
              | .COMMA :: .QUOTED s :: .RPAREN :: r5 =>
                .ok (.SpatialPredicateNode e1 e2 "RELATE" (Option.some s) .none Option.none, r5)
              | .COMMA :: .QUOTED _ :: r5 => errAt r5
              | .COMMA :: r5 => errAt r5
              | _ => errAt r4
          | _ => errAt r2
      | _ => errAt ts := rfl

theorem parseDistTail_succ (f : Nat) (op : String) (ts : List Tok) :
    parseDistTail (f+1) op ts =
      match ts with
      | .LPAREN :: r =>
        pbind (parseExpr f r) fun e1 r2 =>
          match r2 with
          | .COMMA :: r3 =>
            pbind (parseExpr f r3) fun e2 r4 =>
              match r4 with
              | .COMMA :: r5 =>
                pbind (parseNumber r5) fun d r6 =>
                  (match r6 with
                   | .COMMA :: .UNITS u :: .RPAREN :: r7 =>
                     .ok (.SpatialPredicateNode e1 e2 op Option.none (.some d) (Option.some u), r7)
                   | .COMMA :: .UNITS _ :: r7 => errAt r7
                   | .COMMA :: r7 => errAt r7
                   | _ => errAt r6)
              | _ => errAt r4
          | _ => errAt r2
      | _ => errAt ts := rfl

theorem parseBBoxTail_succ (f : Nat) (ts : List Tok) :
    parseBBoxTail (f+1) ts =
      match ts with
      | .LPAREN :: r =>
        pbind (parseExpr f r) fun v r2 =>
          match r2 with
          | .COMMA :: r3 =>
            pbind (parseNumber r3) fun n1 r4 =>
              match r4 with
              | .COMMA :: r5 =>
                pbind (parseNumber r5) fun n2 r6 =>
                  match r6 with
                  | .COMMA :: r7 =>
                    pbind (parseNumber r7) fun n3 r8 =>
                      match r8 with
                      | .COMMA :: r9 =>
                        pbind (parseNumber r9) fun n4 r10 =>
                          (match r10 with
                           | .RPAREN :: r11 =>
                             .ok (.BBoxPredicateNode v n1 n2 n3 n4 Option.none, r11)
                           | .COMMA :: .QUOTED c :: .RPAREN :: r11 =>
                             .ok (.BBoxPredicateNode v n1 n2 n3 n4 (Option.some c), r11)
                           | .COMMA :: .QUOTED _ :: r11 => errAt r11
                           | .COMMA :: r11 => errAt r11
                           | _ => errAt r10)
                      | _ => errAt r8
                  | _ => errAt r6
              | _ => errAt r4
          | _ => errAt r2
      | _ => errAt ts := rfl

theorem parseSpatial_succ (f : Nat) (ts : List Tok) :
    parseSpatial (f+1) ts =
      match ts with
      | .INTERSECTS :: r => parseSpatialArgsTail f "INTERSECTS" r
      | .DISJOINT :: r => parseSpatialArgsTail f "DISJOINT" r
      | .CONTAINS :: r => parseSpatialArgsTail f "CONTAINS" r
      | .WITHIN :: r => parseSpatialArgsTail f "WITHIN" r
      | .TOUCHES :: r => parseSpatialArgsTail f "TOUCHES" r
      | .CROSSES :: r => parseSpatialArgsTail f "CROSSES" r
      | .OVERLAPS :: r => parseSpatialArgsTail f "OVERLAPS" r
      | .EQUALS :: r => parseSpatialArgsTail f "EQUALS" r
      | .RELATE :: r => parseRelateTail f r
      | .DWITHIN :: r => parseDistTail f "DWITHIN" r
      | .BEYOND :: r => parseDistTail f "BEYOND" r
      | .BBOX :: r => parseBBoxTail f r
      | _ => errAt ts := rfl

theorem parseGroup_succ (f : Nat) (paren : Bool) (ts : List Tok) :
    parseGroup (f+1) paren ts =
      pbind (parseCondOrExpr f ts) fun g r =>
        match paren, r with
        | true, .RPAREN :: r2 => parseAfterGroup f g r2
        | false, .RBRACKET :: r2 => parseAfterGroup f g r2
        | _, r1 => errAt r1 := rfl

theorem parseAfterGroup_succ (f : Nat) (g : CondOrExpr) (ts : List Tok) :
    parseAfterGroup (f+1) g ts =
      match g with
      | .cond c =>
        pbind (parseCondAfter f c ts) fun c2 r => .ok (.cond c2, r)
      | .expr e => parseExprGroupCont f e ts := rfl

theorem parseExprGroupCont_succ (f : Nat) (e : Node) (ts : List Tok) :
    parseExprGroupCont (f+1) e ts =
      pbind (parseTermLoop f e ts) fun t r =>
        pbind (parseExprLoop f t r) fun x r2 =>
          if isPredStart r2 then
            pbind (parsePredAfterExpr f x r2) fun p r3 =>
              pbind (parseCondAfter f p r3) fun c r4 => .ok (.cond c, r4)
          else .ok (.expr x, r2) := rfl

theorem parseCondOrExpr_succ (f : Nat) (ts : List Tok) :
    parseCondOrExpr (f+1) ts =
      match ts with
      | .NOT :: r =>
        pbind (parseCond f r) fun c r2 => .ok (.cond (.NotConditionNode c), r2)
      | .LPAREN :: r => parseGroup f true r
      | .LBRACKET :: r => parseGroup f false r
      | _ =>
        if isSpatialStart ts then
          pbind (parseSpatial f ts) fun s r =>
            pbind (parseCondAfter f s r) fun c r2 => .ok (.cond c, r2)
        else
          pbind (parseExpr f ts) fun e r =>
            if isPredStart r then
              pbind (parsePredAfterExpr f e r) fun p r2 =>
                pbind (parseCondAfter f p r2) fun c r3 => .ok (.cond c, r3)
            else .ok (.expr e, r) := rfl

theorem parseCond_succ (f : Nat) (ts : List Tok) :
    parseCond (f+1) ts =
      pbind (parseCondOrExpr f ts) fun g r =>
        match g with
        | .cond c => .ok (c, r)
        | .expr _ => errAt r := rfl

/-- The parser invariant holds at every fuel. -/
theorem parseInv : ∀ f, Inv f := by
  intro f
  induction f with
  | zero =>
    refine ⟨?_, ?_, ?_, ?_, ?_, ?_, ?_, ?_, ?_, ?_, ?_, ?_, ?_, ?_, ?_, ?_, ?_, ?_, ?_, ?_⟩
    · intro ts e r h
      simp only [parsePrimary] at h
      exact Except.noConfusion h
    · intro lhs ts e r hl h
      rw [parseTermLoop.eq_def] at h
      split at h
      · simp at h
      · simp at h
      · simp only [Except.ok.injEq, Prod.mk.injEq] at h
        obtain ⟨rfl, rfl⟩ := h
        exact hl
    · intro ts e r h
      simp only [parseTerm] at h
      exact Except.noConfusion h
    · intro lhs ts e r hl h
      rw [parseExprLoop.eq_def] at h
      split at h
      · simp at h
      · simp at h
      · simp only [Except.ok.injEq, Prod.mk.injEq] at h
        obtain ⟨rfl, rfl⟩ := h
        exact hl
    · intro ts e r h
      simp only [parseExpr] at h
      exact Except.noConfusion h
    · intro ts es r h
      simp only [parseExprList] at h
      exact Except.noConfusion h
    · intro lhs neg ts n r hl h
      simp only [parseBetweenTail] at h
      exact Except.noConfusion h
    · intro lhs neg ts n r hl h
      simp only [parseInTail] at h
      exact Except.noConfusion h
    · intro lhs ts n r hl h
      simp only [parsePredAfterExpr] at h
      exact Except.noConfusion h
    · intro op ts n r h
      simp only [parseSpatialArgsTail] at h
      exact Except.noConfusion h
    · intro ts n r h
      simp only [parseRelateTail] at h
      exact Except.noConfusion h
    · intro op ts n r h
      simp only [parseDistTail] at h
      exact Except.noConfusion h
    · intro ts n r h
      simp only [parseBBoxTail] at h
      exact Except.noConfusion h
    · intro ts n r h
      simp only [parseSpatial] at h
      exact Except.noConfusion h
    · intro c ts n r hc h
      rw [parseCondAfter.eq_def] at h
      split at h
      · simp at h
      · simp at h
      · simp only [Except.ok.injEq, Prod.mk.injEq] at h
        obtain ⟨rfl, rfl⟩ := h
        exact hc
    · intro b ts g r h
      simp only [parseGroup] at h
      exact Except.noConfusion h
    · intro g0 ts g r hg h
      simp only [parseAfterGroup] at h
      exact Except.noConfusion h
    · intro e ts g r he h
      simp only [parseExprGroupCont] at h
      exact Except.noConfusion h
    · intro ts g r h
      simp only [parseCondOrExpr] at h
      exact Except.noConfusion h
    · intro ts c r h
      simp only [parseCond] at h
      exact Except.noConfusion h
  | succ f ih =>
    refine ⟨?_, ?_, ?_, ?_, ?_, ?_, ?_, ?_, ?_, ?_, ?_, ?_, ?_, ?_, ?_, ?_, ?_, ?_, ?_, ?_⟩
    · -- parsePrimary
      intro ts e r h
      rw [parsePrimary_succ] at h
      split at h
      · obtain ⟨e1, r2, hx, h⟩ := pbind_eq_ok h
        split at h
        · simp only [Except.ok.injEq, Prod.mk.injEq] at h
          obtain ⟨rfl, rfl⟩ := h
          exact ih.expr _ _ _ hx
        · simp only [errAt] at h
          exact Except.noConfusion h
      · obtain ⟨e1, r2, hx, h⟩ := pbind_eq_ok h
        split at h
        · simp only [Except.ok.injEq, Prod.mk.injEq] at h
          obtain ⟨rfl, rfl⟩ := h
          exact ih.expr _ _ _ hx
        · simp only [errAt] at h
          exact Except.noConfusion h
      · simp only [Except.ok.injEq, Prod.mk.injEq] at h
        obtain ⟨rfl, rfl⟩ := h
        rfl
      · simp only [Except.ok.injEq, Prod.mk.injEq] at h
        obtain ⟨rfl, rfl⟩ := h
        rfl
      · simp only [Except.ok.injEq, Prod.mk.injEq] at h
        obtain ⟨rfl, rfl⟩ := h
        rfl
      · simp only [Except.ok.injEq, Prod.mk.injEq] at h
        obtain ⟨rfl, rfl⟩ := h
        rfl
      · simp only [Except.ok.injEq, Prod.mk.injEq] at h
        obtain ⟨rfl, rfl⟩ := h
        rfl
      · simp only [Except.ok.injEq, Prod.mk.injEq] at h
        obtain ⟨rfl, rfl⟩ := h
        rfl
      · simp only [errAt] at h
        exact Except.noConfusion h
    · -- parseTermLoop
      intro lhs ts e r hl h
      rw [parseTermLoop.eq_def] at h
      split at h
      · split at h
        · exact Except.noConfusion h
        · rename_i g hg
          have hgf : g = f := by omega
          subst hgf
          obtain ⟨rhs, r2, hx, h⟩ := pbind_eq_ok h
          refine ih.termLoop _ _ _ _ ?_ h
          simp only [exprOnly, Bool.and_eq_true]
          exact ⟨hl, ih.prim _ _ _ hx⟩
      · split at h
        · exact Except.noConfusion h
        · rename_i g hg
          have hgf : g = f := by omega
          subst hgf
          obtain ⟨rhs, r2, hx, h⟩ := pbind_eq_ok h
          refine ih.termLoop _ _ _ _ ?_ h
          simp only [exprOnly, Bool.and_eq_true]
          exact ⟨hl, ih.prim _ _ _ hx⟩
      · simp only [Except.ok.injEq, Prod.mk.injEq] at h
        obtain ⟨rfl, rfl⟩ := h
        exact hl
    · -- parseTerm
      intro ts e r h
      rw [parseTerm_succ] at h
      obtain ⟨p, r1, hx, h⟩ := pbind_eq_ok h
      exact ih.termLoop _ _ _ _ (ih.prim _ _ _ hx) h
    · -- parseExprLoop
      intro lhs ts e r hl h
      rw [parseExprLoop.eq_def] at h
      split at h
      · split at h
        · exact Except.noConfusion h
        · rename_i g hg
          have hgf : g = f := by omega
          subst hgf
          obtain ⟨t, r2, hx, h⟩ := pbind_eq_ok h
          refine ih.exprLoop _ _ _ _ ?_ h
          simp only [exprOnly, Bool.and_eq_true]
          exact ⟨hl, ih.term _ _ _ hx⟩
      · split at h
        · exact Except.noConfusion h
        · rename_i g hg
          have hgf : g = f := by omega
          subst hgf
          obtain ⟨t, r2, hx, h⟩ := pbind_eq_ok h
          refine ih.exprLoop _ _ _ _ ?_ h
          simp only [exprOnly, Bool.and_eq_true]
          exact ⟨hl, ih.term _ _ _ hx⟩
      · simp only [Except.ok.injEq, Prod.mk.injEq] at h
        obtain ⟨rfl, rfl⟩ := h
        exact hl
    · -- parseExpr
      intro ts e r h
      rw [parseExpr_succ] at h
      obtain ⟨t, r1, hx, h⟩ := pbind_eq_ok h
      exact ih.exprLoop _ _ _ _ (ih.term _ _ _ hx) h
    · -- parseExprList
      intro ts es r h
      rw [parseExprList_succ] at h
      obtain ⟨e, r1, hx, h⟩ := pbind_eq_ok h
      split at h
      · obtain ⟨es2, r3, hy, h⟩ := pbind_eq_ok h
        simp only [Except.ok.injEq, Prod.mk.injEq] at h
        obtain ⟨rfl, rfl⟩ := h
        simp only [exprOnlyList, Bool.and_eq_true]
        exact ⟨ih.expr _ _ _ hx, ih.exprList _ _ _ hy⟩
      · simp only [Except.ok.injEq, Prod.mk.injEq] at h
        obtain ⟨rfl, rfl⟩ := h
        simp [exprOnlyList, ih.expr _ _ _ hx]
    · -- parseBetweenTail
      intro lhs neg ts n r hl h
      rw [parseBetweenTail_succ] at h
      obtain ⟨low, r1, hx, h⟩ := pbind_eq_ok h
      split at h
      · obtain ⟨high, r3, hy, h⟩ := pbind_eq_ok h
        simp only [Except.ok.injEq, Prod.mk.injEq] at h
        obtain ⟨rfl, rfl⟩ := h
        have h1 := exprOnly_noCompInArith _ hl
        have h2 := exprOnly_noCompInArith _ (ih.expr _ _ _ hx)
        have h3 := exprOnly_noCompInArith _ (ih.expr _ _ _ hy)
        simp [noCompInArith, h1, h2, h3]
      · simp only [errAt] at h
        exact Except.noConfusion h
    · -- parseInTail
      intro lhs neg ts n r hl h
      rw [parseInTail_succ] at h
      split at h
      · obtain ⟨es, r2, hx, h⟩ := pbind_eq_ok h
        split at h
        · simp only [Except.ok.injEq, Prod.mk.injEq] at h
          obtain ⟨rfl, rfl⟩ := h
          have h1 := exprOnly_noCompInArith _ hl
          have h2 := exprOnlyList_noCompInArithList _ (ih.exprList _ _ _ hx)
          simp [noCompInArith, h1, h2]
        · simp only [errAt] at h
          exact Except.noConfusion h
      · simp only [errAt] at h
        exact Except.noConfusion h
    · -- parsePredAfterExpr
      intro lhs ts n r hl h
      have hln := exprOnly_noCompInArith _ hl
      rw [parsePredAfterExpr_succ] at h
      split at h
      · obtain ⟨rhs, r2, hx, h⟩ := pbind_eq_ok h
        simp only [Except.ok.injEq, Prod.mk.injEq] at h
        obtain ⟨rfl, rfl⟩ := h
        simp [noCompInArith, hln, exprOnly_noCompInArith _ (ih.expr _ _ _ hx)]
      · obtain ⟨rhs, r2, hx, h⟩ := pbind_eq_ok h
        simp only [Except.ok.injEq, Prod.mk.injEq] at h
        obtain ⟨rfl, rfl⟩ := h
        simp [noCompInArith, hln, exprOnly_noCompInArith _ (ih.expr _ _ _ hx)]
      · obtain ⟨rhs, r2, hx, h⟩ := pbind_eq_ok h
        simp only [Except.ok.injEq, Prod.mk.injEq] at h
        obtain ⟨rfl, rfl⟩ := h
        simp [noCompInArith, hln, exprOnly_noCompInArith _ (ih.expr _ _ _ hx)]
      · obtain ⟨rhs, r2, hx, h⟩ := pbind_eq_ok h
        simp only [Except.ok.injEq, Prod.mk.injEq] at h
        obtain ⟨rfl, rfl⟩ := h
        simp [noCompInArith, hln, exprOnly_noCompInArith _ (ih.expr _ _ _ hx)]
      · obtain ⟨rhs, r2, hx, h⟩ := pbind_eq_ok h
        simp only [Except.ok.injEq, Prod.mk.injEq] at h
        obtain ⟨rfl, rfl⟩ := h
        simp [noCompInArith, hln, exprOnly_noCompInArith _ (ih.expr _ _ _ hx)]
      · obtain ⟨rhs, r2, hx, h⟩ := pbind_eq_ok h
        simp only [Except.ok.injEq, Prod.mk.injEq] at h
        obtain ⟨rfl, rfl⟩ := h
        simp [noCompInArith, hln, exprOnly_noCompInArith _ (ih.expr _ _ _ hx)]
      · -- NOT
        split at h
        · exact ih.betweenTail _ _ _ _ _ hl h
        · split at h
          · simp only [Except.ok.injEq, Prod.mk.injEq] at h
            obtain ⟨rfl, rfl⟩ := h
            simp [noCompInArith, hln]
          · simp only [errAt] at h
            exact Except.noConfusion h
        · split at h
          · simp only [Except.ok.injEq, Prod.mk.injEq] at h
            obtain ⟨rfl, rfl⟩ := h
            simp [noCompInArith, hln]
          · simp only [errAt] at h
            exact Except.noConfusion h
        · exact ih.inTail _ _ _ _ _ hl h
        · simp only [errAt] at h
          exact Except.noConfusion h
      · exact ih.betweenTail _ _ _ _ _ hl h
      · -- LIKE
        split at h
        · simp only [Except.ok.injEq, Prod.mk.injEq] at h
          obtain ⟨rfl, rfl⟩ := h
          simp [noCompInArith, hln]
        · simp only [errAt] at h
          exact Except.noConfusion h
      · -- ILIKE
        split at h
        · simp only [Except.ok.injEq, Prod.mk.injEq] at h
          obtain ⟨rfl, rfl⟩ := h
          simp [noCompInArith, hln]
        · simp only [errAt] at h
          exact Except.noConfusion h
      · exact ih.inTail _ _ _ _ _ hl h
      · -- IS
        split at h
        · split at h
          · simp only [Except.ok.injEq, Prod.mk.injEq] at h
            obtain ⟨rfl, rfl⟩ := h
            simp [noCompInArith, hln]
          · simp only [errAt] at h
            exact Except.noConfusion h
        · simp only [Except.ok.injEq, Prod.mk.injEq] at h
          obtain ⟨rfl, rfl⟩ := h
          simp [noCompInArith, hln]
        · simp only [errAt] at h
          exact Except.noConfusion h
      · -- BEFORE
        split at h
        · simp only [Except.ok.injEq, Prod.mk.injEq] at h
          obtain ⟨rfl, rfl⟩ := h
          simp [noCompInArith, hln]
        · split at h
          · obtain ⟨p, r4, hx, h⟩ := pbind_eq_ok h
            simp only [Except.ok.injEq, Prod.mk.injEq] at h
            obtain ⟨rfl, rfl⟩ := h
            simp [noCompInArith, hln]
          · simp only [errAt] at h
            exact Except.noConfusion h
        · simp only [errAt] at h
          exact Except.noConfusion h
      · -- DURING
        split at h
        · split at h
          · obtain ⟨p, r4, hx, h⟩ := pbind_eq_ok h
            simp only [Except.ok.injEq, Prod.mk.injEq] at h
            obtain ⟨rfl, rfl⟩ := h
            simp [noCompInArith, hln]
          · simp only [errAt] at h
            exact Except.noConfusion h
        · obtain ⟨p, r2, hx, h⟩ := pbind_eq_ok h
          simp only [Except.ok.injEq, Prod.mk.injEq] at h
          obtain ⟨rfl, rfl⟩ := h
          simp [noCompInArith, hln]
      · -- AFTER
        split at h
        · simp only [Except.ok.injEq, Prod.mk.injEq] at h
          obtain ⟨rfl, rfl⟩ := h
          simp [noCompInArith, hln]
        · simp only [errAt] at h
          exact Except.noConfusion h
      · simp only [errAt] at h
        exact Except.noConfusion h
    · -- parseSpatialArgsTail
      intro op ts n r h
      rw [parseSpatialArgsTail_succ] at h
      split at h
      · obtain ⟨e1, r2, hx, h⟩ := pbind_eq_ok h
        split at h
        · obtain ⟨e2, r4, hy, h⟩ := pbind_eq_ok h
          split at h
          · simp only [Except.ok.injEq, Prod.mk.injEq] at h
            obtain ⟨rfl, rfl⟩ := h
            simp [noCompInArith, noCompInArithOpt,
              exprOnly_noCompInArith _ (ih.expr _ _ _ hx),
              exprOnly_noCompInArith _ (ih.expr _ _ _ hy)]
          · simp only [errAt] at h
            exact Except.noConfusion h
        · simp only [errAt] at h
          exact Except.noConfusion h
      · simp only [errAt] at h
        exact Except.noConfusion h
    · -- parseRelateTail
      intro ts n r h
      rw [parseRelateTail_succ] at h
      split at h
      · obtain ⟨e1, r2, hx, h⟩ := pbind_eq_ok h
        split at h
        · obtain ⟨e2, r4, hy, h⟩ := pbind_eq_ok h
          split at h
          · simp only [Except.ok.injEq, Prod.mk.injEq] at h
            obtain ⟨rfl, rfl⟩ := h
            simp [noCompInArith, noCompInArithOpt,
              exprOnly_noCompInArith _ (ih.expr _ _ _ hx),
              exprOnly_noCompInArith _ (ih.expr _ _ _ hy)]
          · simp only [errAt] at h
            exact Except.noConfusion h
          · simp only [errAt] at h
            exact Except.noConfusion h
          · simp only [errAt] at h
            exact Except.noConfusion h
        · simp only [errAt] at h
          exact Except.noConfusion h
      · simp only [errAt] at h
        exact Except.noConfusion h
    · -- parseDistTail
      intro op ts n r h
      rw [parseDistTail_succ] at h
      split at h
      · obtain ⟨e1, r2, hx, h⟩ := pbind_eq_ok h
        split at h
        · obtain ⟨e2, r4, hy, h⟩ := pbind_eq_ok h
          split at h
          · obtain ⟨d, r6, hz, h⟩ := pbind_eq_ok h
            split at h
            · simp only [Except.ok.injEq, Prod.mk.injEq] at h
              obtain ⟨rfl, rfl⟩ := h
              simp [noCompInArith, noCompInArithOpt,
                exprOnly_noCompInArith _ (ih.expr _ _ _ hx),
                exprOnly_noCompInArith _ (ih.expr _ _ _ hy),
                exprOnly_noCompInArith _ (parseNumber_exprOnly hz)]
            · simp only [errAt] at h
              exact Except.noConfusion h
            · simp only [errAt] at h
              exact Except.noConfusion h
            · simp only [errAt] at h
              exact Except.noConfusion h
          · simp only [errAt] at h
            exact Except.noConfusion h
        · simp only [errAt] at h
          exact Except.noConfusion h
      · simp only [errAt] at h
        exact Except.noConfusion h
    · -- parseBBoxTail
      intro ts n r h
      rw [parseBBoxTail_succ] at h
      split at h
      · obtain ⟨v, r2, hx, h⟩ := pbind_eq_ok h
        split at h
        · obtain ⟨n1, r4, h1, h⟩ := pbind_eq_ok h
          split at h
          · obtain ⟨n2, r6, h2, h⟩ := pbind_eq_ok h
            split at h
            · obtain ⟨n3, r8, h3, h⟩ := pbind_eq_ok h
              split at h
              · obtain ⟨n4, r10, h4, h⟩ := pbind_eq_ok h
                split at h
                · simp only [Except.ok.injEq, Prod.mk.injEq] at h
                  obtain ⟨rfl, rfl⟩ := h
                  simp [noCompInArith,
                    exprOnly_noCompInArith _ (ih.expr _ _ _ hx),
                    exprOnly_noCompInArith _ (parseNumber_exprOnly h1),
                    exprOnly_noCompInArith _ (parseNumber_exprOnly h2),
                    exprOnly_noCompInArith _ (parseNumber_exprOnly h3),
                    exprOnly_noCompInArith _ (parseNumber_exprOnly h4)]
                · simp only [Except.ok.injEq, Prod.mk.injEq] at h
                  obtain ⟨rfl, rfl⟩ := h
                  simp [noCompInArith,
                    exprOnly_noCompInArith _ (ih.expr _ _ _ hx),
                    exprOnly_noCompInArith _ (parseNumber_exprOnly h1),
                    exprOnly_noCompInArith _ (parseNumber_exprOnly h2),
                    exprOnly_noCompInArith _ (parseNumber_exprOnly h3),
                    exprOnly_noCompInArith _ (parseNumber_exprOnly h4)]
                · simp only [errAt] at h
                  exact Except.noConfusion h
                · simp only [errAt] at h
                  exact Except.noConfusion h
                · simp only [errAt] at h
                  exact Except.noConfusion h
              · simp only [errAt] at h
                exact Except.noConfusion h
            · simp only [errAt] at h
              exact Except.noConfusion h
          · simp only [errAt] at h
            exact Except.noConfusion h
        · simp only [errAt] at h
          exact Except.noConfusion h
      · simp only [errAt] at h
        exact Except.noConfusion h
    · -- parseSpatial
      intro ts n r h
      rw [parseSpatial_succ] at h
      split at h
      · exact ih.spatialArgs _ _ _ _ h
      · exact ih.spatialArgs _ _ _ _ h
      · exact ih.spatialArgs _ _ _ _ h
      · exact ih.spatialArgs _ _ _ _ h
      · exact ih.spatialArgs _ _ _ _ h
      · exact ih.spatialArgs _ _ _ _ h
      · exact ih.spatialArgs _ _ _ _ h
      · exact ih.spatialArgs _ _ _ _ h
      · exact ih.relateTail _ _ _ h
      · exact ih.distTail _ _ _ _ h
      · exact ih.distTail _ _ _ _ h
      · exact ih.bboxTail _ _ _ h
      · simp only [errAt] at h
        exact Except.noConfusion h
    · -- parseCondAfter
      intro c ts n r hc h
      rw [parseCondAfter.eq_def] at h
      split at h
      · split at h
        · exact Except.noConfusion h
        · rename_i g hg
          have hgf : g = f := by omega
          subst hgf
          obtain ⟨rhs, r2, hx, h⟩ := pbind_eq_ok h
          simp only [Except.ok.injEq, Prod.mk.injEq] at h
          obtain ⟨rfl, rfl⟩ := h
          simp [noCompInArith, hc, ih.cond _ _ _ hx]
      · split at h
        · exact Except.noConfusion h
        · rename_i g hg
          have hgf : g = f := by omega
          subst hgf
          obtain ⟨rhs, r2, hx, h⟩ := pbind_eq_ok h
          simp only [Except.ok.injEq, Prod.mk.injEq] at h
          obtain ⟨rfl, rfl⟩ := h
          simp [noCompInArith, hc, ih.cond _ _ _ hx]
      · simp only [Except.ok.injEq, Prod.mk.injEq] at h
        obtain ⟨rfl, rfl⟩ := h
        exact hc
    · -- parseGroup
      intro b ts g r h
      rw [parseGroup_succ] at h
      obtain ⟨g1, r1, hx, h⟩ := pbind_eq_ok h
      split at h
      · exact ih.afterGroup _ _ _ _ (ih.condOrExpr _ _ _ hx) h
      · exact ih.afterGroup _ _ _ _ (ih.condOrExpr _ _ _ hx) h
      · simp only [errAt] at h
        exact Except.noConfusion h
    · -- parseAfterGroup
      intro g0 ts g r hg0 h
      rw [parseAfterGroup_succ] at h
      split at h
      · obtain ⟨c2, r2, hx, h⟩ := pbind_eq_ok h
        simp only [Except.ok.injEq, Prod.mk.injEq] at h
        obtain ⟨rfl, rfl⟩ := h
        simp only [okCoE] at hg0 ⊢
        exact ih.condAfter _ _ _ _ hg0 hx
      · simp only [okCoE] at hg0
        exact ih.exprGroupCont _ _ _ _ hg0 h
    · -- parseExprGroupCont
      intro e ts g r he h
      rw [parseExprGroupCont_succ] at h
      obtain ⟨t, r1, hx, h⟩ := pbind_eq_ok h
      obtain ⟨x, r2, hy, h⟩ := pbind_eq_ok h
      have hex : exprOnly x = true := ih.exprLoop _ _ _ _ (ih.termLoop _ _ _ _ he hx) hy
      split at h
      · obtain ⟨p, r3, hz, h⟩ := pbind_eq_ok h
        obtain ⟨c, r4, hw, h⟩ := pbind_eq_ok h
        simp only [Except.ok.injEq, Prod.mk.injEq] at h
        obtain ⟨rfl, rfl⟩ := h
        simp only [okCoE]
        exact ih.condAfter _ _ _ _ (ih.predAfter _ _ _ _ hex hz) hw
      · simp only [Except.ok.injEq, Prod.mk.injEq] at h
        obtain ⟨rfl, rfl⟩ := h
        simpa [okCoE] using hex
    · -- parseCondOrExpr
      intro ts g r h
      rw [parseCondOrExpr_succ] at h
      split at h
      · obtain ⟨c, r2, hx, h⟩ := pbind_eq_ok h
        simp only [Except.ok.injEq, Prod.mk.injEq] at h
        obtain ⟨rfl, rfl⟩ := h
        simp only [okCoE, noCompInArith]
        exact ih.cond _ _ _ hx
      · exact ih.group _ _ _ _ h
      · exact ih.group _ _ _ _ h
      · split at h
        · obtain ⟨s, r1, hx, h⟩ := pbind_eq_ok h
          obtain ⟨c, r2, hy, h⟩ := pbind_eq_ok h
          simp only [Except.ok.injEq, Prod.mk.injEq] at h
          obtain ⟨rfl, rfl⟩ := h
          simp only [okCoE]
          exact ih.condAfter _ _ _ _ (ih.spatial _ _ _ hx) hy
        · obtain ⟨e, r1, hx, h⟩ := pbind_eq_ok h
          split at h
          · obtain ⟨p, r2, hy, h⟩ := pbind_eq_ok h
            obtain ⟨c, r3, hz, h⟩ := pbind_eq_ok h
            simp only [Except.ok.injEq, Prod.mk.injEq] at h
            obtain ⟨rfl, rfl⟩ := h
            simp only [okCoE]
            exact ih.condAfter _ _ _ _ (ih.predAfter _ _ _ _ (ih.expr _ _ _ hx) hy) hz
          · simp only [Except.ok.injEq, Prod.mk.injEq] at h
            obtain ⟨rfl, rfl⟩ := h
            simpa [okCoE] using ih.expr _ _ _ hx
    · -- parseCond
      intro ts c r h
      rw [parseCond_succ] at h
      obtain ⟨g, r1, hx, h⟩ := pbind_eq_ok h
      split at h
      · simp only [Except.ok.injEq, Prod.mk.injEq] at h
        obtain ⟨rfl, rfl⟩ := h
        simpa [okCoE] using ih.condOrExpr _ _ _ hx
      · simp only [errAt] at h
        exact Except.noConfusion h

/-- Parse results never nest a comparison inside arithmetic. -/
theorem parse_noCompInArith (ts : List Tok) (T : Node)
    (h : parse ts = .tree T) : noCompInArith T = true := by
  rw [parse.eq_def] at h
  split at h
  · exact Outcome.noConfusion h
  · split at h
    · rename_i hx
      simp only [Outcome.tree.injEq] at h
      subst h
      exact (parseInv _).cond _ _ _ hx
    · exact Outcome.noConfusion h
    · exact Outcome.noConfusion h

/-!  Helper facts for the claim theorems. -/

/-- A successful `BETWEEN` tail yields a `BetweenPredicateNode` with
exactly the negation flag passed down from the production. -/
theorem parseBetweenTail_shape (f : Nat) (lhs : Node) (neg : Bool) (ts : List Tok)
    (n : Node) (r : List Tok) (h : parseBetweenTail f lhs neg ts = .ok (n, r)) :
    ∃ a b c, n = .BetweenPredicateNode a b c neg := by
  match f with
  | 0 =>
    simp only [parseBetweenTail] at h
    exact Except.noConfusion h
  | g + 1 =>
    rw [parseBetweenTail_succ] at h
    obtain ⟨low, r1, hx, h⟩ := pbind_eq_ok h
    split at h
    · obtain ⟨high, r3, hy, h⟩ := pbind_eq_ok h
      simp only [Except.ok.injEq, Prod.mk.injEq] at h
      obtain ⟨rfl, rfl⟩ := h
      exact ⟨_, _, _, rfl⟩
    · simp only [errAt] at h
      exact Except.noConfusion h

/-- A successful `IN` tail yields an `InPredicateNode` with exactly the
negation flag passed down from the production. -/
theorem parseInTail_shape (f : Nat) (lhs : Node) (neg : Bool) (ts : List Tok)
    (n : Node) (r : List Tok) (h : parseInTail f lhs neg ts = .ok (n, r)) :
    ∃ a es, n = .InPredicateNode a es neg := by
  match f with
  | 0 =>
    simp only [parseInTail] at h
    exact Except.noConfusion h
  | g + 1 =>
    rw [parseInTail_succ] at h
    split at h
    · obtain ⟨es, r2, hx, h⟩ := pbind_eq_ok h
      split at h
      · simp only [Except.ok.injEq, Prod.mk.injEq] at h
        obtain ⟨rfl, rfl⟩ := h
        exact ⟨_, _, rfl⟩
      · simp only [errAt] at h
        exact Except.noConfusion h
    · simp only [errAt] at h
      exact Except.noConfusion h

/-- Lemma: `parseCondAfter` is the identity when no `AND`/`OR` follows. -/
theorem parseCondAfter_stop (fuel : Nat) (c : Node) (ts : List Tok)
    (h : headAndOr ts = false) : parseCondAfter fuel c ts = .ok (c, ts) := by
  apply parseCondAfter.eq_5
  · intro r hr
    subst hr
    simp only [headAndOr] at h
    exact Bool.noConfusion h
  · intro r hr
    subst hr
    simp only [headAndOr] at h
    exact Bool.noConfusion h

/-- The `NOT`-prefixed predicate continuations of `p_predicate`. -/
theorem parsePredAfterExpr_not (f : Nat) (lhs : Node) (ts : List Tok) :
    parsePredAfterExpr (f + 1) lhs (.NOT :: ts) =
      match ts with
      | .BETWEEN :: r2 => parseBetweenTail f lhs true r2
      | .LIKE :: r2 =>
        (match r2 with
         | .QUOTED s :: r3 =>
           .ok (.LikePredicateNode lhs (.LiteralExpression (.str s)) true true, r3)
         | _ => errAt r2)
      | .ILIKE :: r2 =>
        (match r2 with
         | .QUOTED s :: r3 =>
           .ok (.LikePredicateNode lhs (.LiteralExpression (.str s)) false true, r3)
         | _ => errAt r2)
      | .IN :: r2 => parseInTail f lhs true r2
      | _ => errAt ts := rfl

/-!  Claim theorems. -/

/-- Claim C1: the four binary-operator tiers are, lowest to highest and
all left-associative, `{=, <>}` < `{<, <=, >, >=}` < `{+, -}` <
`{*, /}`; consequently `"a + 1 = b * 2"` parses to a
`ComparisonPredicate` with op `"="` whose lhs and rhs are both
`ArithmeticExpression` nodes, and no `ComparisonPredicate` ever appears
nested inside an `ArithmeticExpression` for any input. -/
theorem arithmetic_binds_tighter_than_comparison :
    (parse [.ATTRIBUTE "a", .PLUS, .INTEGER 1, .EQ, .ATTRIBUTE "b", .TIMES, .INTEGER 2] =
      .tree (.ComparisonPredicateNode
        (.ArithmeticExpressionNode (.AttributeExpression "a") (.LiteralExpression (.int 1)) "+")
        (.ArithmeticExpressionNode (.AttributeExpression "b") (.LiteralExpression (.int 2)) "*")
        "=")) ∧
    (∀ ts T, parse ts = .tree T → noCompInArith T = true) :=
  ⟨by rfl, parse_noCompInArith⟩

/-- Witness for C1 at the claim's own input. -/
theorem arithmetic_binds_tighter_than_comparison_witness :
    noCompInArith (.ComparisonPredicateNode
      (.ArithmeticExpressionNode (.AttributeExpression "a") (.LiteralExpression (.int 1)) "+")
      (.ArithmeticExpressionNode (.AttributeExpression "b") (.LiteralExpression (.int 2)) "*")
      "=") = true :=
  arithmetic_binds_tighter_than_comparison.2
    [.ATTRIBUTE "a", .PLUS, .INTEGER 1, .EQ, .ATTRIBUTE "b", .TIMES, .INTEGER 2] _ (by rfl)

/-- Claim C2: `"a NOT BETWEEN 1 AND 10"` produces a `BetweenPredicate`
with `negated = true`, `"NOT (a BETWEEN 1 AND 10)"` produces a
`NotCondition` wrapping a `BetweenPredicate` with `negated = false`,
and in general a `NOT` token consumed directly before
`BETWEEN`/`LIKE`/`ILIKE`/`IN` after an expression becomes the
predicate's `negated` flag and never a `NotCondition` wrapper. -/
theorem not_before_predicate_sets_negated_flag :
    (parse [.ATTRIBUTE "a", .NOT, .BETWEEN, .INTEGER 1, .AND, .INTEGER 10] =
      .tree (.BetweenPredicateNode (.AttributeExpression "a")
        (.LiteralExpression (.int 1)) (.LiteralExpression (.int 10)) true)) ∧
    (parse [.NOT, .LPAREN, .ATTRIBUTE "a", .BETWEEN, .INTEGER 1, .AND, .INTEGER 10, .RPAREN] =
      .tree (.NotConditionNode (.BetweenPredicateNode (.AttributeExpression "a")
        (.LiteralExpression (.int 1)) (.LiteralExpression (.int 10)) false))) ∧
    (∀ f lhs ts n r, parsePredAfterExpr f lhs (.NOT :: ts) = .ok (n, r) →
      isNegatedPredicate n = true ∧ isNotCondition n = false) := by
  refine ⟨by rfl, by rfl, ?_⟩
  intro f lhs ts n r h
  match f with
  | 0 =>
    simp only [parsePredAfterExpr] at h
    exact Except.noConfusion h
  | g + 1 =>
    rw [parsePredAfterExpr_not] at h
    split at h
    · obtain ⟨a, b, c, rfl⟩ := parseBetweenTail_shape _ _ _ _ _ _ h
      exact ⟨rfl, rfl⟩
    · split at h
      · simp only [Except.ok.injEq, Prod.mk.injEq] at h
        obtain ⟨rfl, rfl⟩ := h
        exact ⟨rfl, rfl⟩
      · simp only [errAt] at h
        exact Except.noConfusion h
    · split at h
      · simp only [Except.ok.injEq, Prod.mk.injEq] at h
        obtain ⟨rfl, rfl⟩ := h
        exact ⟨rfl, rfl⟩
      · simp only [errAt] at h
        exact Except.noConfusion h
    · obtain ⟨a, es, rfl⟩ := parseInTail_shape _ _ _ _ _ _ h
      exact ⟨rfl, rfl⟩
    · simp only [errAt] at h
      exact Except.noConfusion h

/-- Witness for C2's general part at a concrete `NOT BETWEEN` input. -/
theorem not_before_predicate_sets_negated_flag_witness :
    isNegatedPredicate (.BetweenPredicateNode (.AttributeExpression "x")
      (.LiteralExpression (.int 1)) (.LiteralExpression (.int 2)) true) = true ∧
    isNotCondition (.BetweenPredicateNode (.AttributeExpression "x")
      (.LiteralExpression (.int 1)) (.LiteralExpression (.int 2)) true) = false :=
  not_before_predicate_sets_negated_flag.2.2 8 (.AttributeExpression "x")
    [.BETWEEN, .INTEGER 1, .AND, .INTEGER 2] _ [] (by rfl)

/-- Counterexample to claim C3 as stated: `"NOT a = 1 AND b = 2"` does
not parse to a conjunction whose left child is the negated comparison;
`NOT`, `AND` and `OR` carry no declared precedence, so yacc resolves
the shift/reduce conflict by shifting `AND`. -/
theorem not_binds_tighter_counterexample :
    parse [.NOT, .ATTRIBUTE "a", .EQ, .INTEGER 1, .AND, .ATTRIBUTE "b", .EQ, .INTEGER 2] ≠
      .tree (.CombinationConditionNode
        (.NotConditionNode
          (.ComparisonPredicateNode (.AttributeExpression "a") (.LiteralExpression (.int 1)) "="))
        (.ComparisonPredicateNode (.AttributeExpression "b") (.LiteralExpression (.int 2)) "=")
        "AND") := by
  decide

/-- Claim C3 (amended): `NOT` binds looser than `AND`/`OR` — none of
`NOT`, `AND`, `OR` appear in the precedence table, so their
shift/reduce conflicts default to SHIFT and a leading `NOT` negates the
maximal condition to its right: `"NOT a = 1 AND b = 2"` parses as
`NotCondition(CombinationCondition(a = 1, b = 2, AND))`. -/
theorem not_binds_looser_than_and_or :
    parse [.NOT, .ATTRIBUTE "a", .EQ, .INTEGER 1, .AND, .ATTRIBUTE "b", .EQ, .INTEGER 2] =
      .tree (.NotConditionNode (.CombinationConditionNode
        (.ComparisonPredicateNode (.AttributeExpression "a") (.LiteralExpression (.int 1)) "=")
        (.ComparisonPredicateNode (.AttributeExpression "b") (.LiteralExpression (.int 2)) "=")
        "AND")) := by
  rfl

/-- Claim C4: for the malformed input `"a = 1 AND"` (dangling `AND`) the
engine stops with an unexpected-end-of-input error and no partial tree
is built — but `p_error` only logs the diagnostics and ply's engine
aborts by returning `None`, so the caller receives exactly the same
`None` value as for blank input: the failure is not surfaced as a
distinct outcome. -/
theorem dangling_and_not_distinct_from_empty :
    parse [.ATTRIBUTE "a", .EQ, .INTEGER 1, .AND] = .error Option.none ∧
    returnValue (parse [.ATTRIBUTE "a", .EQ, .INTEGER 1, .AND]) = Option.none ∧
    returnValue (parse []) = Option.none :=
  ⟨by rfl, by rfl, by rfl⟩

/-- Claim C5: multi-token temporal operators are joined into a single
op string — `"a DURING OR AFTER t1/t2"` gives op `"DURING OR AFTER"`
with the ordered `TimePeriod` pair, `"BEFORE OR DURING"` likewise, and
single-token `BEFORE`/`AFTER` give instant operands. -/
theorem temporal_multiword_operators :
    (parse [.ATTRIBUTE "a", .DURING, .OR, .AFTER, .TIME "t1", .DIVIDE, .TIME "t2"] =
      .tree (.TemporalPredicateNode (.AttributeExpression "a")
        (.period (.time "t1") (.time "t2")) "DURING OR AFTER")) ∧
    (parse [.ATTRIBUTE "a", .BEFORE, .OR, .DURING, .TIME "t1", .DIVIDE, .TIME "t2"] =
      .tree (.TemporalPredicateNode (.AttributeExpression "a")
        (.period (.time "t1") (.time "t2")) "BEFORE OR DURING")) ∧
    (parse [.ATTRIBUTE "a", .BEFORE, .TIME "t1"] =
      .tree (.TemporalPredicateNode (.AttributeExpression "a")
        (.instant (.time "t1")) "BEFORE")) ∧
    (parse [.ATTRIBUTE "a", .AFTER, .TIME "t1"] =
      .tree (.TemporalPredicateNode (.AttributeExpression "a")
        (.instant (.time "t1")) "AFTER")) :=
  ⟨by rfl, by rfl, by rfl, by rfl⟩

/-- Claim C6: `"BBOX(geom, 0,0,10,10)"` builds a `BBoxPredicate` (not a
`SpatialPredicate`) from the value expression and the four numeric
literals at the fixed stride-2 argument positions, `crs` left at its
default; a trailing quoted CRS argument populates `crs`. -/
theorem bbox_builds_bbox_predicate :
    (parse [.BBOX, .LPAREN, .ATTRIBUTE "geom", .COMMA, .INTEGER 0, .COMMA, .INTEGER 0,
        .COMMA, .INTEGER 10, .COMMA, .INTEGER 10, .RPAREN] =
      .tree (.BBoxPredicateNode (.AttributeExpression "geom")
        (.LiteralExpression (.int 0)) (.LiteralExpression (.int 0))
        (.LiteralExpression (.int 10)) (.LiteralExpression (.int 10)) Option.none)) ∧
    (parse [.BBOX, .LPAREN, .ATTRIBUTE "geom", .COMMA, .INTEGER 0, .COMMA, .INTEGER 0,
        .COMMA, .INTEGER 10, .COMMA, .INTEGER 10, .COMMA, .QUOTED "EPSG:4326", .RPAREN] =
      .tree (.BBoxPredicateNode (.AttributeExpression "geom")
        (.LiteralExpression (.int 0)) (.LiteralExpression (.int 0))
        (.LiteralExpression (.int 10)) (.LiteralExpression (.int 10))
        (Option.some "EPSG:4326"))) :=
  ⟨by rfl, by rfl⟩

/-- Claim C7: `"(a = 1)"`, `"[a = 1]"` and `"a = 1"` parse to identical
`ComparisonPredicate` trees; in general a bracketed group — condition
or expression, `( )` or `[ ]` — yields exactly the inner node, with no
grouping node retained. -/
theorem bracket_transparency :
    (parse [.LPAREN, .ATTRIBUTE "a", .EQ, .INTEGER 1, .RPAREN] =
      .tree (.ComparisonPredicateNode (.AttributeExpression "a")
        (.LiteralExpression (.int 1)) "=")) ∧
    (parse [.LBRACKET, .ATTRIBUTE "a", .EQ, .INTEGER 1, .RBRACKET] =
      .tree (.ComparisonPredicateNode (.AttributeExpression "a")
        (.LiteralExpression (.int 1)) "=")) ∧
    (parse [.ATTRIBUTE "a", .EQ, .INTEGER 1] =
      .tree (.ComparisonPredicateNode (.AttributeExpression "a")
        (.LiteralExpression (.int 1)) "=")) ∧
    (∀ f ts C r, parseCondOrExpr f ts = .ok (.cond C, .RPAREN :: r) →
      headAndOr r = false →
      parseCondOrExpr (f + 2) (.LPAREN :: ts) = .ok (.cond C, r)) ∧
    (∀ f ts C r, parseCondOrExpr f ts = .ok (.cond C, .RBRACKET :: r) →
      headAndOr r = false →
      parseCondOrExpr (f + 2) (.LBRACKET :: ts) = .ok (.cond C, r)) ∧
    (∀ f ts e r, parseExpr f ts = .ok (e, .RPAREN :: r) →
      parsePrimary (f + 1) (.LPAREN :: ts) = .ok (e, r)) ∧
    (∀ f ts e r, parseExpr f ts = .ok (e, .RBRACKET :: r) →
      parsePrimary (f + 1) (.LBRACKET :: ts) = .ok (e, r)) := by
  refine ⟨by rfl, by rfl, by rfl, ?_, ?_, ?_, ?_⟩
  · intro f ts C r h hr
    match f with
    | 0 =>
      simp only [parseCondOrExpr] at h
      exact Except.noConfusion h
    | g + 1 =>
      have h2 : parseCondOrExpr (g + 1 + 2) (.LPAREN :: ts) =
          parseGroup (g + 1 + 1) true ts := rfl
      rw [h2, parseGroup_succ]
      simp only [h, pbind_ok, parseAfterGroup_succ, parseCondAfter_stop _ _ _ hr]
  · intro f ts C r h hr
    match f with
    | 0 =>
      simp only [parseCondOrExpr] at h
      exact Except.noConfusion h
    | g + 1 =>
      have h2 : parseCondOrExpr (g + 1 + 2) (.LBRACKET :: ts) =
          parseGroup (g + 1 + 1) false ts := rfl
      rw [h2, parseGroup_succ]
      simp only [h, pbind_ok, parseAfterGroup_succ, parseCondAfter_stop _ _ _ hr]
  · intro f ts e r h
    rw [parsePrimary_succ]
    simp only [h, pbind_ok]
  · intro f ts e r h
    rw [parsePrimary_succ]
    simp only [h, pbind_ok]

/-- Witness for C7's general parts at concrete groups. -/
theorem bracket_transparency_witness :
    (parseCondOrExpr 10 [.ATTRIBUTE "b", .EQ, .INTEGER 2, .RPAREN] =
      .ok (.cond (.ComparisonPredicateNode (.AttributeExpression "b")
        (.LiteralExpression (.int 2)) "="), [.RPAREN]) ∧
     headAndOr [] = false ∧
     parseCondOrExpr 12 [.LPAREN, .ATTRIBUTE "b", .EQ, .INTEGER 2, .RPAREN] =
      .ok (.cond (.ComparisonPredicateNode (.AttributeExpression "b")
        (.LiteralExpression (.int 2)) "="), [])) ∧
    (parseCondOrExpr 10 [.ATTRIBUTE "b", .EQ, .INTEGER 2, .RBRACKET] =
      .ok (.cond (.ComparisonPredicateNode (.AttributeExpression "b")
        (.LiteralExpression (.int 2)) "="), [.RBRACKET]) ∧
     parseCondOrExpr 12 [.LBRACKET, .ATTRIBUTE "b", .EQ, .INTEGER 2, .RBRACKET] =
      .ok (.cond (.ComparisonPredicateNode (.AttributeExpression "b")
        (.LiteralExpression (.int 2)) "="), [])) ∧
    (parseExpr 10 [.INTEGER 3, .RPAREN] = .ok (.LiteralExpression (.int 3), [.RPAREN]) ∧
     parsePrimary 11 [.LPAREN, .INTEGER 3, .RPAREN] = .ok (.LiteralExpression (.int 3), [])) ∧
    (parseExpr 10 [.INTEGER 3, .RBRACKET] = .ok (.LiteralExpression (.int 3), [.RBRACKET]) ∧
     parsePrimary 11 [.LBRACKET, .INTEGER 3, .RBRACKET] = .ok (.LiteralExpression (.int 3), [])) :=
  ⟨⟨by rfl, by rfl, bracket_transparency.2.2.2.1 10 _ _ [] (by rfl) (by rfl)⟩,
   ⟨by rfl, bracket_transparency.2.2.2.2.1 10 _ _ [] (by rfl) (by rfl)⟩,
   ⟨by rfl, bracket_transparency.2.2.2.2.2.1 10 _ _ [] (by rfl)⟩,
   ⟨by rfl, bracket_transparency.2.2.2.2.2.2 10 _ _ [] (by rfl)⟩⟩

/-- Claim C8: empty (or all-whitespace, hence tokenless) input takes the
`condition_or_empty : empty` production: the parse returns the
designated empty result and reports no error. -/
theorem empty_input_is_empty_result :
    parse [] = .empty ∧
    returnValue (parse []) = Option.none ∧
    ∀ t, parse [] ≠ .error t :=
  ⟨by rfl, by rfl, fun t h => Outcome.noConfusion h⟩

/-- Claim C9: `time_period` accepts exactly the endpoint shapes
instant/instant, instant/duration and duration/instant, building the
ordered pair; duration/duration is rejected at the second `DURATION`
token and produces no `TemporalPredicate`. -/
theorem time_period_productions :
    (∀ a b r, parseTimePeriod (.TIME a :: .DIVIDE :: .TIME b :: r) =
      .ok ((.time a, .time b), r)) ∧
    (∀ a b r, parseTimePeriod (.TIME a :: .DIVIDE :: .DURATION b :: r) =
      .ok ((.time a, .duration b), r)) ∧
    (∀ a b r, parseTimePeriod (.DURATION a :: .DIVIDE :: .TIME b :: r) =
      .ok ((.duration a, .time b), r)) ∧
    (∀ a b r, parseTimePeriod (.DURATION a :: .DIVIDE :: .DURATION b :: r) =
      .error (Option.some (.DURATION b))) ∧
    (parse [.ATTRIBUTE "a", .DURING, .DURATION "P1D", .DIVIDE, .DURATION "P2D"] =
      .error (Option.some (.DURATION "P2D"))) :=
  ⟨fun a b r => by rfl, fun a b r => by rfl, fun a b r => by rfl,
   fun a b r => by rfl, by rfl⟩

/-- Claim C10: the `caseSensitive` field of a `LikePredicate` is
exactly `op == "LIKE"` — `LIKE` (with or without leading `NOT`) gives
`true`, `ILIKE` gives `false` — and the quoted pattern is wrapped as a
`LiteralExpression`. -/
theorem like_ilike_case_sensitivity :
    (∀ f lhs s r, parsePredAfterExpr (f + 1) lhs (.LIKE :: .QUOTED s :: r) =
      .ok (.LikePredicateNode lhs (.LiteralExpression (.str s)) true false, r)) ∧
    (∀ f lhs s r, parsePredAfterExpr (f + 1) lhs (.NOT :: .LIKE :: .QUOTED s :: r) =
      .ok (.LikePredicateNode lhs (.LiteralExpression (.str s)) true true, r)) ∧
    (∀ f lhs s r, parsePredAfterExpr (f + 1) lhs (.ILIKE :: .QUOTED s :: r) =
      .ok (.LikePredicateNode lhs (.LiteralExpression (.str s)) false false, r)) ∧
    (∀ f lhs s r, parsePredAfterExpr (f + 1) lhs (.NOT :: .ILIKE :: .QUOTED s :: r) =
      .ok (.LikePredicateNode lhs (.LiteralExpression (.str s)) false true, r)) ∧
    (parse [.ATTRIBUTE "a", .LIKE, .QUOTED "x%"] =
      .tree (.LikePredicateNode (.AttributeExpression "a")
        (.LiteralExpression (.str "x%")) true false)) ∧
    (parse [.ATTRIBUTE "a", .ILIKE, .QUOTED "x%"] =
      .tree (.LikePredicateNode (.AttributeExpression "a")
        (.LiteralExpression (.str "x%")) false false)) :=
  ⟨fun f lhs s r => by rfl, fun f lhs s r => by rfl, fun f lhs s r => by rfl,
   fun f lhs s r => by rfl, by rfl, by rfl⟩

end PyCQL
